import Mathlib

/-!
Verification development for the tinyecs archetype ECS core (`tinyecs.h`) and its
Bevy-style scheduling layer (`tinyecs_bevy.h`).

The C sources are shallowly embedded as executable Lean functions over explicit
state records.  Modelling conventions, used consistently below:

* machine integers are `Nat` with explicit `% 2^w` where C overflow/truncation
  matters (entity handles are `uint64`, generations `uint16`, ticks `uint32`);
* a C array that is indexed and overwritten in place is modelled as a
  finitely-supported map `List (Nat × _)` read through `storeGet` (most recent
  write wins, with a fixed default for never-written cells) and written through
  `storeSet`; this is extensionally the array: `storeGet` after `storeSet` at
  the same index yields the written value and every other index is untouched.
  malloc'd byte buffers start empty = all zero (their contents are never read
  before being written on the defined-behaviour paths);
* the small open-addressing hash tables of the C code (`tecs_component_map_t`,
  `tecs_edge_map_t`, the archetype table, the tbevy hashmap) are modelled
  extensionally: they are only ever populated with distinct keys and looked up
  by exact key match, so a linear-probing table is observationally an
  association map; the model uses association-list / `findIdx?` lookups that
  return the same results;
* heap pointers to archetypes are modelled as indices into the world's
  `archetypes` store (pointers are stable in C: archetypes are never moved);
  a pointer-to-record (`tecs_entity_record_t*`) is modelled as the index of
  the record in the dense array;
* every component in the claims is registered with the default native storage
  provider (`storage_provider == NULL`), so columns are modelled with the
  native provider's byte semantics (`memcpy`-style reads/writes/swaps);
* loops whose termination is not structural carry an explicit gas parameter
  (noted at each definition); the C loop and the model agree whenever the gas
  is at least the number of iterations the C loop performs.
-/

/-! ## Entity handles (`tecs_entity_t`, TECS_ENTITY_* macros) -/

/-- A `tecs_entity_t` is a 64-bit value; index in bits 0-31, generation in bits 32-47. -/
abbrev TecsEntity := Nat

/-- TECS_ENTITY_INDEX: low 32 bits. -/
def tecs_entity_index (e : TecsEntity) : Nat := e % 2 ^ 32

/-- TECS_ENTITY_GENERATION: bits 32-47. -/
def tecs_entity_generation (e : TecsEntity) : Nat := (e / 2 ^ 32) % 2 ^ 16

/-- TECS_ENTITY_MAKE: `(uint64_t)idx | ((uint64_t)gen << 32)`.  The operands are
first truncated to `uint32`/`uint16`, so the bit ranges are disjoint and the
bitwise-or equals addition. -/
def tecs_entity_make (idx gen : Nat) : TecsEntity :=
  idx % 2 ^ 32 + (gen % 2 ^ 16) * 2 ^ 32

/-- TECS_CHUNK_SIZE (default configuration). -/
def TECS_CHUNK_SIZE : Nat := 4096

/-! ## Array cells as finitely-supported maps -/

/-- Read cell `i` of an array modelled as a finitely-supported map
(`d` is the value of never-written cells). -/
def storeGet (m : List (Nat × α)) (d : α) (i : Nat) : α :=
  match m.find? (fun p => p.1 = i) with
  | some p => p.2
  | none => d

/-- Write cell `i` of an array (in-place array store: the new entry shadows
any older entry for the same index, since `storeGet` scans newest-first). -/
def storeSet (m : List (Nat × α)) (i : Nat) (v : α) : List (Nat × α) :=
  (i, v) :: m

/-! ## Native storage provider byte semantics

A column's storage is a byte buffer of `component_size * capacity` bytes,
modelled as a byte-offset store with default 0.
`tecs_native_get_ptr` yields offset `index * size`; reading through the
pointer reads `size` consecutive bytes. -/

/-- Byte buffer type of a column. -/
abbrev TecsBuf := List (Nat × Nat)

/-- Bytes `[off, off+n)` of a buffer, as read through `tecs_native_get_ptr`. -/
def readBytes (d : TecsBuf) (off n : Nat) : List Nat :=
  (List.range n).map (fun i => storeGet d 0 (off + i))

/-- tecs_native_set_data: `memcpy(ptr, src, size)` at byte offset `off`;
bytes outside `[off, off + src.length)` are untouched. -/
def writeBytes (d : TecsBuf) (off : Nat) (src : List Nat) : TecsBuf :=
  match src with
  | [] => d
  | b :: rest => writeBytes (storeSet d off b) (off + 1) rest

/-- tecs_native_copy_data: copy `size` bytes from row `srcIdx` of `src` to
row `dstIdx` of `dst`. -/
def copyBytes (src : TecsBuf) (srcIdx : Nat) (dst : TecsBuf) (dstIdx size : Nat) :
    TecsBuf :=
  writeBytes dst (dstIdx * size) (readBytes src (srcIdx * size) size)

/-- tecs_native_swap_data: exchange the `size`-byte rows `a` and `b`
(identity when `a = b`, as in the C early return; otherwise both rows are read
out and written crosswise, the `memcpy` dance through the temporary buffer). -/
def swapBytes (d : TecsBuf) (a b size : Nat) : TecsBuf :=
  if a = b then d
  else
    let ra := readBytes d (a * size) size
    let rb := readBytes d (b * size) size
    writeBytes (writeBytes d (a * size) rb) (b * size) ra

/-- Little-endian serialization of an `n`-byte C integer/pointer field, used to
model component structs (`tecs_parent_t` stores one `tecs_entity_t`). -/
def natToBytes (v : Nat) (n : Nat) : List Nat :=
  (List.range n).map (fun i => v / 256 ^ i % 256)

/-- Little-endian deserialization (reading a stored `tecs_entity_t` back). -/
def bytesToNat (l : List Nat) : Nat :=
  (l.enum.map (fun p => p.2 % 256 * 256 ^ p.1)).sum

/-! ## Entity sparse set (`tecs_entity_sparse_set_t`) -/

/-- tecs_entity_record_t.  `archetype` is an index into the world's archetype
store (`none` models the NULL pointer); `chunk_index`/`row` are C `int`s and
are initialized to `-1`. -/
structure TecsRecord where
  archetype : Option Nat
  chunk_index : Int
  row : Int
deriving Repr, DecidableEq

instance : Inhabited TecsRecord := ⟨⟨none, -1, -1⟩⟩

/-- tecs_entity_sparse_set_t.  `dense` is the records array (a total function;
entries at or past `dense_count` model the array's stale/uninitialized memory,
exactly as in C, where `dense_count` alone tracks liveness).  `recycled` is a
stack with its top at the head. -/
structure TecsSparseSet where
  sparse : List (Nat × Nat)
  sparse_capacity : Nat
  dense : List (Nat × TecsRecord)
  dense_count : Nat
  recycled : List Nat
  generations : List (Nat × Nat)
  generation_capacity : Nat
deriving Repr, DecidableEq

/-- tecs_sparse_set_init (`calloc`ed sparse and generations arrays = all
zero; `malloc`ed dense = uninitialized, default record for unread cells). -/
def tecs_sparse_set_init : TecsSparseSet where
  sparse := []
  sparse_capacity := 1024
  dense := []
  dense_count := 0
  recycled := []
  generations := []
  generation_capacity := 1024

/-- Doubling loop of tecs_sparse_set_ensure_capacity with structural gas:
`while (index >= cap) cap *= 2`.  From `cap ≥ 1`, doubling at most `index + 1`
times always reaches `index < cap`, so the gas below never runs out. -/
def growCapacityAux : Nat → Nat → Nat → Nat
  | 0, cap, _ => cap
  | gas + 1, cap, index => if index < cap then cap else growCapacityAux gas (cap * 2) index

/-- Doubling loop of tecs_sparse_set_ensure_capacity:
`while (index >= cap) cap *= 2` (no growth when `index < cap`). -/
def growCapacity (cap index : Nat) : Nat :=
  growCapacityAux (index + 1) cap index

/-- tecs_sparse_set_ensure_capacity (the arrays are total functions, so only
the capacity fields change; the C code zero-fills the grown region, matching
the functions' existing values on never-written indices). -/
def tecs_sparse_set_ensure_capacity (s : TecsSparseSet) (index : Nat) : TecsSparseSet :=
  { s with
    sparse_capacity := growCapacity s.sparse_capacity index
    generation_capacity := growCapacity s.generation_capacity index }

/-- tecs_sparse_set_create. -/
def tecs_sparse_set_create (s : TecsSparseSet) : TecsEntity × TecsSparseSet :=
  let step :=
    match s.recycled with
    | i :: rest =>
        let g := (storeGet s.generations 0 i + 1) % 2 ^ 16
        (i, g, { s with
                  recycled := rest
                  generations := storeSet s.generations i g })
    | [] => (s.dense_count, 0, s)
  let index := step.1
  let generation := step.2.1
  let s := step.2.2
  let s := tecs_sparse_set_ensure_capacity s index
  let s := { s with
    sparse := storeSet s.sparse index s.dense_count
    dense := storeSet s.dense s.dense_count ⟨none, -1, -1⟩
    dense_count := s.dense_count + 1 }
  (tecs_entity_make index generation, s)

/-- tecs_sparse_set_get, returning the position of the record in `dense`
(the C function returns `&set->dense[dense_index]`; callers that write through
the pointer are modelled by updating `dense` at this index). -/
def tecs_sparse_set_get_idx (s : TecsSparseSet) (e : TecsEntity) : Option Nat :=
  let index := tecs_entity_index e
  let generation := tecs_entity_generation e
  if s.sparse_capacity ≤ index then none
  else if storeGet s.generations 0 index ≠ generation then none
  else
    let dense_index := storeGet s.sparse 0 index
    if s.dense_count ≤ dense_index then none
    else some dense_index

/-- tecs_sparse_set_get as used by read-only callers: the record pointed to. -/
def tecs_sparse_set_get (s : TecsSparseSet) (e : TecsEntity) : Option TecsRecord :=
  (tecs_sparse_set_get_idx s e).map (storeGet s.dense default)

/-- tecs_sparse_set_remove.  Note the C code's own comment at the dense swap:
"We'd need to track entity IDs in dense array to do this properly" — the
swapped-in record's sparse slot is NOT updated. -/
def tecs_sparse_set_remove (s : TecsSparseSet) (e : TecsEntity) : TecsSparseSet :=
  let index := tecs_entity_index e
  if s.sparse_capacity ≤ index then s
  else
    let dense_index := storeGet s.sparse 0 index
    if s.dense_count ≤ dense_index then s
    else
      let s :=
        if dense_index < s.dense_count - 1 then
          { s with dense :=
              storeSet s.dense dense_index (storeGet s.dense default (s.dense_count - 1)) }
        else s
      { s with
        dense_count := s.dense_count - 1
        recycled := index :: s.recycled }

/-! ## Component info, hashing, archetypes (`tecs_archetype_s`) -/

/-- tecs_component_info_t. -/
structure TecsComponentInfo where
  id : Nat
  size : Nat
  column_index : Int
deriving Repr, DecidableEq

/-- Insertion sort of component ids, as in tecs_hash_component_set. -/
def insertId (x : Nat) : List Nat → List Nat
  | [] => [x]
  | y :: ys => if y > x then x :: y :: ys else y :: insertId x ys

/-- Sorted copy used inside tecs_hash_component_set. -/
def sortIds : List Nat → List Nat
  | [] => []
  | x :: xs => insertId x (sortIds xs)

/-- tecs_hash_component_set: FNV-1a (64-bit) over the ascending-sorted id list. -/
def tecs_hash_component_set (ids : List Nat) : Nat :=
  (sortIds ids).foldl (fun h i => (h ^^^ i) * 1099511628211 % 2 ^ 64) 14695981039346656037

/-- Insertion of one component record into an id-sorted list (the C code uses
`qsort` with `tecs_compare_component_info`; ids within an archetype are
distinct, so the sorted result is unique). -/
def insertComp (x : TecsComponentInfo) : List TecsComponentInfo → List TecsComponentInfo
  | [] => [x]
  | y :: ys => if y.id > x.id then x :: y :: ys else y :: insertComp x ys

/-- Sort components ascending by id. -/
def sortComps : List TecsComponentInfo → List TecsComponentInfo
  | [] => []
  | x :: xs => insertComp x (sortComps xs)

/-- Per-component column of a chunk (`tecs_column_t`).  All components in the
claims use the default native provider, so the provider fields are fixed to the
native byte semantics; `storage_data` is the byte buffer. -/
structure TecsColumn where
  storage_data : TecsBuf
  changed_ticks : List (Nat × Nat)
  added_ticks : List (Nat × Nat)
deriving Repr, DecidableEq

/-- Freshly allocated column: `malloc`ed bytes (unread before first write,
modelled 0) and `calloc`ed tick arrays. -/
def zeroColumn : TecsColumn := ⟨[], [], []⟩

instance : Inhabited TecsColumn := ⟨zeroColumn⟩

/-- tecs_chunk_t.  `capacity` is always TECS_CHUNK_SIZE.  `columns` is the
column array (one slot per data component of the owning archetype; slots past
that count model unallocated memory and are never read in defined behaviour). -/
structure TecsChunk where
  entities : List (Nat × TecsEntity)
  columns : List (Nat × TecsColumn)
  count : Nat
deriving Repr, DecidableEq

instance : Inhabited TecsChunk := ⟨[], [], 0⟩

/-- tecs_archetype_s.  The `component_map` / `data_component_map` hash tables
are populated at construction with exactly `components[i].id -> i` and
`data_components[i].id -> i`; their lookups are modelled extensionally by
`findIdx?` below.  The add/remove edge arrays and their maps carry the same
associations, so only the maps are modelled (component id → archetype index). -/
structure TecsArchetype where
  id : Nat
  components : List TecsComponentInfo
  data_components : List TecsComponentInfo
  tags : List TecsComponentInfo
  chunks : List (Nat × TecsChunk)
  chunk_count : Nat
  entity_count : Nat
  add_edge_map : List (Nat × Nat)
  remove_edge_map : List (Nat × Nat)
deriving Repr, DecidableEq

instance : Inhabited TecsArchetype := ⟨0, [], [], [], [], 0, 0, [], []⟩

/-- tecs_component_map_get on an archetype's `component_map`:
index of the component in `components`, `-1` (here `none`) if absent. -/
def tecs_archetype_find_component (ar : TecsArchetype) (cid : Nat) : Option Nat :=
  ar.components.findIdx? (fun c => c.id = cid)

/-- tecs_archetype_has_component. -/
def tecs_archetype_has_component (ar : TecsArchetype) (cid : Nat) : Bool :=
  (tecs_archetype_find_component ar cid).isSome

/-- tecs_component_map_get on `data_component_map`: the column index of a data
component. -/
def tecs_data_component_find (ar : TecsArchetype) (cid : Nat) : Option Nat :=
  ar.data_components.findIdx? (fun c => c.id = cid)

/-- tecs_edge_map_get. -/
def tecs_edge_map_get (m : List (Nat × Nat)) (cid : Nat) : Option Nat :=
  (m.find? (fun p => p.1 = cid)).map (·.2)

/-- tecs_edge_map_set (linear-probe insert-or-overwrite on a distinct-key
table = association update). -/
def tecs_edge_map_set (m : List (Nat × Nat)) (cid target : Nat) : List (Nat × Nat) :=
  if (m.find? (fun p => p.1 = cid)).isSome then
    m.map (fun p => if p.1 = cid then (cid, target) else p)
  else m ++ [(cid, target)]

/-- tecs_archetype_find_edge. -/
def tecs_archetype_find_edge (ar : TecsArchetype) (cid : Nat) (is_add : Bool) : Option Nat :=
  tecs_edge_map_get (if is_add then ar.add_edge_map else ar.remove_edge_map) cid

/-- tecs_archetype_new: sort the components, split into data components
(re-numbered `column_index := 0,1,...`) and tags, hash the id set. -/
def tecs_archetype_new (components : List TecsComponentInfo) : TecsArchetype :=
  let sorted := sortComps components
  let data := ((sorted.filter (fun c => 0 < c.size)).enum).map
    (fun p => { p.2 with column_index := (p.1 : Int) })
  let tags := sorted.filter (fun c => c.size = 0)
  { id := tecs_hash_component_set (components.map (·.id))
    components := sorted
    data_components := data
    tags := tags
    chunks := []
    chunk_count := 0
    entity_count := 0
    add_edge_map := []
    remove_edge_map := [] }

/-- tecs_chunk_new: one column per data component (each freshly allocated from
the native provider; in the array-as-function model every fresh column is
`zeroColumn`, so the data-component list only fixes how many slots are real). -/
def tecs_chunk_new (_data_components : List TecsComponentInfo) : TecsChunk :=
  { entities := []
    columns := []
    count := 0 }

/-- tecs_archetype_add_edge (only the hash-map half carries semantics). -/
def tecs_archetype_add_edge (ar : TecsArchetype) (cid target : Nat) (is_add : Bool) :
    TecsArchetype :=
  if is_add then { ar with add_edge_map := tecs_edge_map_set ar.add_edge_map cid target }
  else { ar with remove_edge_map := tecs_edge_map_set ar.remove_edge_map cid target }

/-! ## Registry and world (`tecs_world_s`) -/

/-- tecs_component_registry_entry_t (names as byte strings; the
`storage_provider` is NULL = native for every component in the claims). -/
structure TecsRegEntry where
  id : Nat
  name : List Nat
  size : Nat
deriving Repr, DecidableEq

/-- tecs_children_t: the world-side child list (`entities` plus its `capacity`;
`count` is the list length). -/
structure TecsChildren where
  entities : List TecsEntity
  capacity : Nat
deriving Repr, DecidableEq

/-- tecs_world_s.  `archetypes` is the pointer store (archetypes are
heap-allocated and never moved in C; indices model the pointers).
`archetype_table` keeps `(hash, archetype index)` entries; the C table is
open-addressed but only ever looked up by exact hash, so insertion order is
an equivalent extensional model (slot order only matters for iteration order,
which no claim depends on).  The deferred command buffer is omitted: nothing
in this source ever enqueues a command, and no embedded operation consults
`in_deferred`. -/
structure TecsWorld where
  entities : TecsSparseSet
  root_archetype : Nat
  archetypes : List (Nat × TecsArchetype)
  archetype_count : Nat
  archetype_table : List (Nat × Nat)
  component_registry : List TecsRegEntry
  tick : Nat
  structural_change_version : Nat
  entity_children : List (TecsEntity × TecsChildren)
  parent_component_id : Nat
  children_component_id : Nat
deriving Repr, DecidableEq

/-- Read an archetype out of the store (C dereferences a pointer). -/
def TecsWorld.arch (w : TecsWorld) (i : Nat) : TecsArchetype :=
  storeGet w.archetypes default i

/-- Update an archetype in the store (mutation through an archetype pointer). -/
def TecsWorld.setArch (w : TecsWorld) (i : Nat) (a : TecsArchetype) : TecsWorld :=
  { w with archetypes := storeSet w.archetypes i a }

/-- tecs_register_component_ex (always with the NULL = native provider here);
ids start at 1. -/
def tecs_register_component (w : TecsWorld) (name : List Nat) (size : Nat) :
    Nat × TecsWorld :=
  let id := w.component_registry.length + 1
  (id, { w with component_registry := w.component_registry ++ [⟨id, name, size⟩] })

/-- tecs_world_find_archetype: exact-hash lookup in the archetype table. -/
def tecs_world_find_archetype (w : TecsWorld) (hash : Nat) : Option Nat :=
  (w.archetype_table.find? (fun p => p.1 = hash)).map (·.2)

/-- tecs_world_add_archetype: append the archetype to the store and its
`(hash, index)` entry to the table; bump the structural-change version.
(The load-factor rehash only reshuffles slots and is invisible here.) -/
def tecs_world_add_archetype (w : TecsWorld) (a : TecsArchetype) : Nat × TecsWorld :=
  let idx := w.archetype_count
  (idx, { w with
    archetypes := storeSet w.archetypes idx a
    archetype_count := w.archetype_count + 1
    archetype_table := w.archetype_table ++ [(a.id, idx)]
    structural_change_version := w.structural_change_version + 1 })

/-- sizeof(tecs_parent_t): one tecs_entity_t. -/
def SIZEOF_PARENT : Nat := 8

/-- sizeof(tecs_children_t): pointer + two ints. -/
def SIZEOF_CHILDREN : Nat := 16

/-- tecs_world_new: empty sparse set, root archetype at store index 0 and in
the table, then the two auto-registered hierarchy components (ids 1 and 2). -/
def tecs_world_new : TecsWorld :=
  let root := tecs_archetype_new []
  let w : TecsWorld :=
    { entities := tecs_sparse_set_init
      root_archetype := 0
      archetypes := [(0, root)]
      archetype_count := 1
      archetype_table := [(root.id, 0)]
      component_registry := []
      tick := 0
      structural_change_version := 0
      entity_children := []
      parent_component_id := 0
      children_component_id := 0 }
  let pr := tecs_register_component w [116, 101, 99, 115] SIZEOF_PARENT
  let ch := tecs_register_component pr.2 [116, 101, 99, 115, 99] SIZEOF_CHILDREN
  { ch.2 with parent_component_id := pr.1, children_component_id := ch.1 }

/-- tecs_world_update: `world->tick++` on a uint32. -/
def tecs_world_update (w : TecsWorld) : TecsWorld :=
  { w with tick := (w.tick + 1) % 2 ^ 32 }

/-- tecs_world_entity_count. -/
def tecs_world_entity_count (w : TecsWorld) : Nat :=
  w.entities.dense_count

/-- tecs_world_clear: reset counts, recycle stack, tick; drop every non-root
archetype from the store and table; empty the root's chunks.  The generations
array is NOT touched (see claim C3). -/
def tecs_world_clear (w : TecsWorld) : TecsWorld :=
  let w := { w with
    entities := { w.entities with dense_count := 0, recycled := [] }
    tick := 0
    structural_change_version := w.structural_change_version + 1 }
  let root := w.arch w.root_archetype
  let root := { root with
    chunks := (List.range root.chunk_count).foldl
      (fun cs k => storeSet cs k { storeGet cs default k with count := 0 }) root.chunks
    entity_count := 0 }
  { w with
    archetypes := storeSet w.archetypes w.root_archetype root
    archetype_count := w.root_archetype + 1
    archetype_table := w.archetype_table.filter (fun p => p.2 = w.root_archetype) }

/-! ## Entity placement in archetypes -/

instance : Inhabited TecsComponentInfo := ⟨⟨0, 0, -1⟩⟩

/-- Set both tick arrays of the first `n` columns at `row` (the loop
`for i < data_component_count` of tecs_archetype_add_entity). -/
def setTicksAt (cols : List (Nat × TecsColumn)) (n row tick : Nat) :
    List (Nat × TecsColumn) :=
  (List.range n).foldl
    (fun cs i =>
      let c := storeGet cs default i
      storeSet cs i { c with
        added_ticks := storeSet c.added_ticks row tick
        changed_ticks := storeSet c.changed_ticks row tick })
    cols

/-- Chunk selection at the top of tecs_archetype_add_entity: the first
non-full chunk, or a freshly allocated one. -/
def tecs_archetype_pick_chunk (arch : TecsArchetype) : Nat × TecsArchetype :=
  match (List.range arch.chunk_count).find?
      (fun k => (storeGet arch.chunks default k).count < TECS_CHUNK_SIZE) with
  | some k => (k, arch)
  | none => (arch.chunk_count,
      { arch with
        chunks := storeSet arch.chunks arch.chunk_count (tecs_chunk_new arch.data_components)
        chunk_count := arch.chunk_count + 1 })

/-- tecs_archetype_add_entity: place `entity` in the first non-full chunk
(allocating one if needed), stamp the tick arrays, and point the record
(dense slot `denseIdx`) at `(arch, chunk, entity_count - 1)`.  Note the C code
stores the archetype-global row `entity_count - 1` in the record, not the
in-chunk row. -/
def tecs_archetype_add_entity (w : TecsWorld) (archIdx : Nat) (entity : TecsEntity)
    (denseIdx : Nat) (tick : Nat) : TecsWorld :=
  let arch := w.arch archIdx
  let pick := tecs_archetype_pick_chunk arch
  let chunk_idx := pick.1
  let arch := pick.2
  let chunk := storeGet arch.chunks default chunk_idx
  let row := chunk.count
  let chunk := { chunk with
    entities := storeSet chunk.entities row entity
    count := chunk.count + 1
    columns := setTicksAt chunk.columns arch.data_components.length row tick }
  let arch := { arch with
    chunks := storeSet arch.chunks chunk_idx chunk
    entity_count := arch.entity_count + 1 }
  let w := w.setArch archIdx arch
  let newrec : TecsRecord := ⟨some archIdx, Int.ofNat chunk_idx, Int.ofNat (arch.entity_count - 1)⟩
  { w with entities := { w.entities with
      dense := storeSet w.entities.dense denseIdx newrec } }

/-- Swap-remove body of tecs_archetype_remove_entity for the data columns:
the native provider has `swap_data`, so the swap branch runs; the tick entries
at `row` take the values from `last_row`. -/
def swapColumnsAt (cols : List (Nat × TecsColumn)) (dcs : List TecsComponentInfo)
    (row last_row : Nat) : List (Nat × TecsColumn) :=
  (List.range dcs.length).foldl
    (fun cs i =>
      let size := (dcs.getD i default).size
      let c := storeGet cs default i
      storeSet cs i { c with
        storage_data := swapBytes c.storage_data row last_row size
        changed_ticks := storeSet c.changed_ticks row (storeGet c.changed_ticks 0 last_row)
        added_ticks := storeSet c.added_ticks row (storeGet c.added_ticks 0 last_row) })
    cols

/-- tecs_archetype_remove_entity: if the removed row is not the chunk's last
occupied row, copy the last entity handle over it and swap the column data and
ticks; then decrement the counts.  The swapped-in entity's record is NOT
updated (see claims C1/C2; the defined-behaviour call sites have
`chunk.count ≥ 1`). -/
def tecs_archetype_remove_entity (w : TecsWorld) (archIdx chunk_idx row : Nat) : TecsWorld :=
  let arch := w.arch archIdx
  let chunk := storeGet arch.chunks default chunk_idx
  let last_row := chunk.count - 1
  let chunk :=
    if row ≠ last_row then
      { chunk with
        entities := storeSet chunk.entities row (storeGet chunk.entities 0 last_row)
        columns := swapColumnsAt chunk.columns arch.data_components row last_row }
    else chunk
  let chunk := { chunk with count := chunk.count - 1 }
  let arch := { arch with
    chunks := storeSet arch.chunks chunk_idx chunk
    entity_count := arch.entity_count - 1 }
  w.setArch archIdx arch

/-! ## Entity operations -/

/-- tecs_entity_new.  The C code dereferences the record pointer returned by
tecs_sparse_set_get without a NULL check inside tecs_archetype_add_entity
(`record->archetype = arch;`); a NULL there is a crash, modelled as `none`. -/
def tecs_entity_new (w : TecsWorld) : Option (TecsEntity × TecsWorld) :=
  let p := tecs_sparse_set_create w.entities
  let entity := p.1
  let w := { w with entities := p.2 }
  match tecs_sparse_set_get_idx w.entities entity with
  | none => none
  | some denseIdx =>
      some (entity, tecs_archetype_add_entity w w.root_archetype entity denseIdx w.tick)

/-- tecs_entity_delete. -/
def tecs_entity_delete (w : TecsWorld) (entity : TecsEntity) : TecsWorld :=
  match tecs_sparse_set_get w.entities entity with
  | none => w
  | some record =>
      match record.archetype with
      | none => w
      | some archIdx =>
          let w := tecs_archetype_remove_entity w archIdx record.chunk_index.toNat
            (record.row % (TECS_CHUNK_SIZE : Int)).toNat
          { w with entities := tecs_sparse_set_remove w.entities entity }

/-- tecs_entity_exists. -/
def tecs_entity_exists (w : TecsWorld) (entity : TecsEntity) : Bool :=
  (tecs_sparse_set_get w.entities entity).isSome

/-! ## Archetype transitions and component access -/

/-- tecs_world_get_or_create_archetype_with_component: consult the add-edge
cache, otherwise splice the new component in, hash, look the target up in the
archetype table (creating it if absent), and record both graph edges. -/
def tecs_world_get_or_create_archetype_with_component (w : TecsWorld) (cur : Nat)
    (cid : Nat) (size : Nat) : Nat × TecsWorld :=
  match tecs_archetype_find_edge (w.arch cur) cid true with
  | some t => (t, w)
  | none =>
      let new_components := (w.arch cur).components ++ [⟨cid, size, -1⟩]
      let hash := tecs_hash_component_set (new_components.map (·.id))
      let found :=
        match tecs_world_find_archetype w hash with
        | some t => (t, w)
        | none => tecs_world_add_archetype w (tecs_archetype_new new_components)
      let t := found.1
      let w := found.2
      let w := w.setArch cur (tecs_archetype_add_edge (w.arch cur) cid t true)
      let w := w.setArch t (tecs_archetype_add_edge (w.arch t) cid cur false)
      (t, w)

/-- tecs_world_get_or_create_archetype_without_component. -/
def tecs_world_get_or_create_archetype_without_component (w : TecsWorld) (cur : Nat)
    (cid : Nat) : Nat × TecsWorld :=
  match tecs_archetype_find_edge (w.arch cur) cid false with
  | some t => (t, w)
  | none =>
      if (w.arch cur).components.length = 0 then (cur, w)
      else
        let new_count := (w.arch cur).components.length - 1
        let new_components := (w.arch cur).components.filter (fun c => c.id ≠ cid)
        if new_components.length ≠ new_count then (cur, w)
        else
          let hash := if 0 < new_count then tecs_hash_component_set (new_components.map (·.id)) else 0
          let found :=
            if new_count = 0 then (some w.root_archetype, w)
            else
              match tecs_world_find_archetype w hash with
              | some t => (some t, w)
              | none =>
                  let p := tecs_world_add_archetype w (tecs_archetype_new new_components)
                  (some p.1, p.2)
          match found.1 with
          | none => (cur, found.2)
          | some t =>
              let w := found.2
              let w := w.setArch cur (tecs_archetype_add_edge (w.arch cur) cid t false)
              let w := w.setArch t (tecs_archetype_add_edge (w.arch t) cid cur true)
              (t, w)

/-- tecs_copy_component_data: for every data component of the source archetype
that the destination archetype also stores, copy its bytes and both tick
entries from the source row to the destination row. -/
def tecs_copy_component_data (w : TecsWorld) (srcArch srcChunkIdx srcRow dstArch dstChunkIdx dstRow : Nat) :
    TecsWorld :=
  let sa := w.arch srcArch
  let src_chunk := storeGet sa.chunks default srcChunkIdx
  (List.range sa.data_components.length).foldl
    (fun w i =>
      let comp := sa.data_components.getD i default
      let da := w.arch dstArch
      match tecs_data_component_find da comp.id with
      | none => w
      | some dst_ci =>
          let dst_chunk := storeGet da.chunks default dstChunkIdx
          let src_col := storeGet src_chunk.columns default i
          let dst_col := storeGet dst_chunk.columns default dst_ci
          let dst_col := { dst_col with
            storage_data := copyBytes src_col.storage_data srcRow dst_col.storage_data dstRow comp.size
            changed_ticks := storeSet dst_col.changed_ticks dstRow (storeGet src_col.changed_ticks 0 srcRow)
            added_ticks := storeSet dst_col.added_ticks dstRow (storeGet src_col.added_ticks 0 srcRow) }
          let dst_chunk := { dst_chunk with
            columns := storeSet dst_chunk.columns dst_ci dst_col }
          w.setArch dstArch { da with
            chunks := storeSet da.chunks dstChunkIdx dst_chunk })
    w

/-- New-component write of tecs_set's transition branch: find the component's
column in the destination archetype, write the bytes and stamp both tick
entries at the destination row. -/
def tecs_set_write_new (w : TecsWorld) (newIdx new_chunk_idx new_row cid : Nat)
    (data : List Nat) (size : Nat) : TecsWorld :=
  match tecs_data_component_find (w.arch newIdx) cid with
  | none => w
  | some new_ci =>
      let na := w.arch newIdx
      let nchunk := storeGet na.chunks default new_chunk_idx
      let ncol := storeGet nchunk.columns default new_ci
      let ncol := { ncol with
        storage_data := writeBytes ncol.storage_data (new_row * size) (data.take size)
        changed_ticks := storeSet ncol.changed_ticks new_row w.tick
        added_ticks := storeSet ncol.added_ticks new_row w.tick }
      let nchunk := { nchunk with
        columns := storeSet nchunk.columns new_ci ncol }
      w.setArch newIdx { na with
        chunks := storeSet na.chunks new_chunk_idx nchunk }

/-- tecs_set.  The existing-component branch writes in place and stamps the
changed tick; otherwise the entity transitions along the add edge: it is added
to the new archetype, surviving component data is copied over, the new
component's bytes and ticks are written, and the entity is swap-removed from
its old archetype. -/
def tecs_set (w : TecsWorld) (entity : TecsEntity) (cid : Nat) (data : List Nat)
    (size : Nat) : TecsWorld :=
  match tecs_sparse_set_get_idx w.entities entity with
  | none => w
  | some denseIdx =>
      let record := storeGet w.entities.dense default denseIdx
      match record.archetype with
      | none => w
      | some curIdx =>
          let cur := w.arch curIdx
          match tecs_archetype_find_component cur cid with
          | some _ =>
              match tecs_data_component_find cur cid with
              | none => w
              | some column_idx =>
                  let chunk_idx := record.chunk_index.toNat
                  let row := (record.row % (TECS_CHUNK_SIZE : Int)).toNat
                  let chunk := storeGet cur.chunks default chunk_idx
                  let col := storeGet chunk.columns default column_idx
                  let col := { col with
                    storage_data := writeBytes col.storage_data (row * size) (data.take size)
                    changed_ticks := storeSet col.changed_ticks row w.tick }
                  let chunk := { chunk with
                    columns := storeSet chunk.columns column_idx col }
                  w.setArch curIdx { cur with
                    chunks := storeSet cur.chunks chunk_idx chunk }
          | none =>
              let p := tecs_world_get_or_create_archetype_with_component w curIdx cid size
              let newIdx := p.1
              let w := p.2
              if newIdx = curIdx then w
              else
                let old_chunk_idx := record.chunk_index.toNat
                let old_row := (record.row % (TECS_CHUNK_SIZE : Int)).toNat
                let old_chunk := storeGet (w.arch curIdx).chunks default old_chunk_idx
                let entity_id := storeGet old_chunk.entities 0 old_row
                let w := tecs_archetype_add_entity w newIdx entity_id denseIdx w.tick
                let record := storeGet w.entities.dense default denseIdx
                let new_chunk_idx := record.chunk_index.toNat
                let new_row := (record.row % (TECS_CHUNK_SIZE : Int)).toNat
                let w := tecs_copy_component_data w curIdx old_chunk_idx old_row newIdx new_chunk_idx new_row
                let w := tecs_set_write_new w newIdx new_chunk_idx new_row cid data size
                tecs_archetype_remove_entity w curIdx old_chunk_idx old_row

/-- tecs_get: pointer to the entity's bytes for a data component, or NULL.
The returned value is the `size` bytes the pointer addresses. -/
def tecs_get (w : TecsWorld) (entity : TecsEntity) (cid : Nat) : Option (List Nat) :=
  match tecs_sparse_set_get w.entities entity with
  | none => none
  | some record =>
      match record.archetype with
      | none => none
      | some archIdx =>
          let arch := w.arch archIdx
          match tecs_data_component_find arch cid with
          | none => none
          | some column_idx =>
              let chunk_idx := record.chunk_index.toNat
              let row := (record.row % (TECS_CHUNK_SIZE : Int)).toNat
              let chunk := storeGet arch.chunks default chunk_idx
              let col := storeGet chunk.columns default column_idx
              let size := (arch.data_components.getD column_idx default).size
              some (readBytes col.storage_data (row * size) size)

/-- tecs_has. -/
def tecs_has (w : TecsWorld) (entity : TecsEntity) (cid : Nat) : Bool :=
  match tecs_sparse_set_get w.entities entity with
  | none => false
  | some record =>
      match record.archetype with
      | none => false
      | some archIdx => tecs_archetype_has_component (w.arch archIdx) cid

/-- tecs_unset: transition the entity along the remove edge, copying the
remaining component data, then swap-remove it from the old archetype. -/
def tecs_unset (w : TecsWorld) (entity : TecsEntity) (cid : Nat) : TecsWorld :=
  match tecs_sparse_set_get_idx w.entities entity with
  | none => w
  | some denseIdx =>
      let record := storeGet w.entities.dense default denseIdx
      match record.archetype with
      | none => w
      | some curIdx =>
          if ¬ tecs_archetype_has_component (w.arch curIdx) cid then w
          else
            let p := tecs_world_get_or_create_archetype_without_component w curIdx cid
            let newIdx := p.1
            let w := p.2
            if newIdx = curIdx then w
            else
              let old_chunk_idx := record.chunk_index.toNat
              let old_row := (record.row % (TECS_CHUNK_SIZE : Int)).toNat
              let old_chunk := storeGet (w.arch curIdx).chunks default old_chunk_idx
              let entity_id := storeGet old_chunk.entities 0 old_row
              let w := tecs_archetype_add_entity w newIdx entity_id denseIdx w.tick
              let record := storeGet w.entities.dense default denseIdx
              let new_chunk_idx := record.chunk_index.toNat
              let new_row := (record.row % (TECS_CHUNK_SIZE : Int)).toNat
              let w := tecs_copy_component_data w curIdx old_chunk_idx old_row newIdx new_chunk_idx new_row
              tecs_archetype_remove_entity w curIdx old_chunk_idx old_row

/-- tecs_mark_changed. -/
def tecs_mark_changed (w : TecsWorld) (entity : TecsEntity) (cid : Nat) : TecsWorld :=
  match tecs_sparse_set_get w.entities entity with
  | none => w
  | some record =>
      match record.archetype with
      | none => w
      | some archIdx =>
          let arch := w.arch archIdx
          match tecs_data_component_find arch cid with
          | none => w
          | some column_idx =>
              let chunk_idx := record.chunk_index.toNat
              let row := (record.row % (TECS_CHUNK_SIZE : Int)).toNat
              let chunk := storeGet arch.chunks default chunk_idx
              let col := storeGet chunk.columns default column_idx
              let col := { col with changed_ticks := storeSet col.changed_ticks row w.tick }
              let chunk := { chunk with
                columns := storeSet chunk.columns column_idx col }
              w.setArch archIdx { arch with
                chunks := storeSet arch.chunks chunk_idx chunk }

/-! ## Queries (`tecs_query_s`, iteration) -/

/-- tecs_term_type_t. -/
inductive TecsTermType
  | withT | withoutT | optionalT | changedT | addedT
deriving Repr, DecidableEq

/-- tecs_query_term_t (the unused `data_index` field is dropped). -/
structure TecsQueryTerm where
  type : TecsTermType
  component_id : Nat
deriving Repr, DecidableEq

/-- tecs_query_s: terms plus the cached matches (`matched_archetypes` as store
indices), capture version and built flag. -/
structure TecsQuery where
  terms : List TecsQueryTerm
  matched : List Nat
  last_structural_version : Nat
  built : Bool

/-- tecs_query_new. -/
def tecs_query_new : TecsQuery :=
  { terms := [], matched := [], last_structural_version := 0, built := false }

/-- tecs_query_add_term (TECS_MAX_QUERY_TERMS bound). -/
def tecs_query_add_term (q : TecsQuery) (t : TecsTermType) (cid : Nat) : TecsQuery :=
  if 16 ≤ q.terms.length then q
  else { q with terms := q.terms ++ [⟨t, cid⟩] }

/-- tecs_query_with. -/
def tecs_query_with (q : TecsQuery) (cid : Nat) : TecsQuery :=
  tecs_query_add_term q .withT cid

/-- tecs_query_without. -/
def tecs_query_without (q : TecsQuery) (cid : Nat) : TecsQuery :=
  tecs_query_add_term q .withoutT cid

/-- tecs_archetype_matches_query. -/
def tecs_archetype_matches_query (ar : TecsArchetype) (q : TecsQuery) : Bool :=
  q.terms.all (fun term =>
    let has := tecs_archetype_has_component ar term.component_id
    match term.type with
    | .withT | .changedT | .addedT => has
    | .withoutT => !has
    | .optionalT => true)

/-- tecs_query_build: record all matching archetypes (the C loop walks the
hash-table slots; only the set of matches, not their order, is used by the
claims) and capture the structural version. -/
def tecs_query_build (w : TecsWorld) (q : TecsQuery) : TecsQuery :=
  { q with
    matched := (w.archetype_table.filter
      (fun p => tecs_archetype_matches_query (w.arch p.2) q)).map (·.2)
    last_structural_version := w.structural_change_version
    built := true }

/-- tecs_query_iter_s: archetype cursor and chunk cursor (the
`current_archetype`/`current_chunk` pointers are recomputed from the cursors). -/
structure TecsQueryIter where
  archetype_index : Nat
  chunk_index : Int

/-- tecs_query_iter_init: rebuild if the world's structural version moved. -/
def tecs_query_iter_init (w : TecsWorld) (q : TecsQuery) : TecsQuery × TecsQueryIter :=
  let q := if ¬ q.built ∨ q.last_structural_version ≠ w.structural_change_version
    then tecs_query_build w q else q
  (q, { archetype_index := 0, chunk_index := -1 })

/-- While-loop of tecs_iter_next: starting from cursor `(ai, ci)` (with the
`++chunk_index` already applied), find the next non-empty chunk.  `gas` bounds
the loop iterations; `matched.length + Σ chunk counts + 1` always suffices. -/
def tecs_iter_next_loop (w : TecsWorld) (q : TecsQuery) (ai ci gas : Nat) :
    Option (Nat × Nat) :=
  match gas with
  | 0 => none
  | gas + 1 =>
    if ai < q.matched.length then
      let arch := w.arch (q.matched.getD ai 0)
      if ci < arch.chunk_count then
        if 0 < (storeGet arch.chunks default ci).count then
          some (ai, ci)
        else tecs_iter_next_loop w q ai (ci + 1) gas
      else tecs_iter_next_loop w q (ai + 1) 0 gas
    else none

/-- tecs_iter_next: advance the chunk cursor and run the search loop; returns
the updated iterator and whether a chunk was produced. -/
def tecs_iter_next (w : TecsWorld) (q : TecsQuery) (it : TecsQueryIter) (gas : Nat) :
    Bool × TecsQueryIter :=
  let ci := (it.chunk_index + 1).toNat
  match tecs_iter_next_loop w q it.archetype_index ci gas with
  | some (ai, ci) => (true, { archetype_index := ai, chunk_index := Int.ofNat ci })
  | none => (false, { archetype_index := q.matched.length, chunk_index := 0 })

/-- tecs_iter_count of the iterator's current chunk. -/
def tecs_iter_count (w : TecsWorld) (q : TecsQuery) (it : TecsQueryIter) : Nat :=
  let arch := w.arch (q.matched.getD it.archetype_index 0)
  (storeGet arch.chunks default it.chunk_index.toNat).count

/-- Driver `while (tecs_iter_next(iter)) sum += tecs_iter_count(iter)` used by
the query scenarios (this is the harness loop of spec S2/S3). -/
def tecs_iter_sum_counts (w : TecsWorld) (q : TecsQuery) (it : TecsQueryIter)
    (gas : Nat) : Nat :=
  match gas with
  | 0 => 0
  | gas + 1 =>
    let p := tecs_iter_next w q it gas
    if p.1 then tecs_iter_count w q p.2 + tecs_iter_sum_counts w q p.2 gas
    else 0

/-! ## Hierarchy (`tecs_add_child` and friends) -/

/-- tecs_find_children: linear scan of the world's entity→children table. -/
def tecs_find_children (w : TecsWorld) (entity : TecsEntity) : Option TecsChildren :=
  (w.entity_children.find? (fun p => p.1 = entity)).map (·.2)

/-- tecs_ensure_children: return the existing list or insert a fresh one
(capacity 4). -/
def tecs_ensure_children (w : TecsWorld) (entity : TecsEntity) : TecsChildren × TecsWorld :=
  match tecs_find_children w entity with
  | some c => (c, w)
  | none =>
      let c : TecsChildren := { entities := [], capacity := 4 }
      (c, { w with entity_children := w.entity_children ++ [(entity, c)] })

/-- Store an updated children list back into the table (the C code mutates the
heap list in place through the table's pointer). -/
def tecs_store_children (w : TecsWorld) (entity : TecsEntity) (c : TecsChildren) : TecsWorld :=
  { w with entity_children :=
      w.entity_children.map (fun p => if p.1 = entity then (entity, c) else p) }

/-- tecs_remove_children_entry (the swap-with-last removal only permutes the
table, whose order is irrelevant to the exact-key scans). -/
def tecs_remove_children_entry (w : TecsWorld) (entity : TecsEntity) : TecsWorld :=
  { w with entity_children := w.entity_children.filter (fun p => p.1 ≠ entity) }

/-- Byte image of a `tecs_children_t` struct as written by the mirroring
`tecs_set(world, parent, CHILDREN_ID, children, sizeof(tecs_children_t))`:
a heap pointer (host-specific; never read back by any embedded operation,
fixed to 0 here) followed by `count` and `capacity`. -/
def tecs_children_mirror_bytes (c : TecsChildren) : List Nat :=
  natToBytes 0 8 ++ natToBytes c.entities.length 4 ++ natToBytes c.capacity 4

/-- tecs_get (const) of the Parent component, decoded to the stored handle. -/
def tecs_get_parent_value (w : TecsWorld) (entity : TecsEntity) : Option TecsEntity :=
  (tecs_get w entity w.parent_component_id).map bytesToNat

/-- Walk of tecs_is_ancestor_of / the `max_depth = 256` while loop, with the
remaining permitted iterations as the recursion argument (`256 - depth`). -/
def tecs_ancestor_walk (w : TecsWorld) (ancestor : TecsEntity) :
    Nat → TecsEntity → Bool
  | 0, _ => false
  | gas + 1, current =>
      if current = 0 then false
      else
        match tecs_get_parent_value w current with
        | none => false
        | some parent =>
            if parent = ancestor then true
            else tecs_ancestor_walk w ancestor gas parent

/-- tecs_is_ancestor_of. -/
def tecs_is_ancestor_of (w : TecsWorld) (ancestor descendant : TecsEntity) : Bool :=
  if ¬ tecs_entity_exists w ancestor ∨ ¬ tecs_entity_exists w descendant then false
  else tecs_ancestor_walk w ancestor 256 descendant

/-- tecs_get_parent. -/
def tecs_get_parent (w : TecsWorld) (child : TecsEntity) : TecsEntity :=
  if ¬ tecs_entity_exists w child then 0
  else
    match tecs_get_parent_value w child with
    | some p => p
    | none => 0

/-- tecs_has_parent. -/
def tecs_has_parent (w : TecsWorld) (child : TecsEntity) : Bool :=
  tecs_has w child w.parent_component_id

/-- Detach step of tecs_add_child: remove `child` from its current parent's
children list (swap-with-last in the array), then either mirror the shrunken
list or drop the entry and unset the old parent's Children component. -/
def tecs_detach_from_old_parent (w : TecsWorld) (old_parent child : TecsEntity) : TecsWorld :=
  match tecs_find_children w old_parent with
  | none => w
  | some old_children =>
      match old_children.entities.findIdx? (fun e => e = child) with
      | none => w
      | some i =>
          let l := old_children.entities
          let l := (l.set i (l.getD (l.length - 1) 0)).dropLast
          let old_children := { old_children with entities := l }
          if 0 < l.length then
            let w := tecs_store_children w old_parent old_children
            tecs_set w old_parent w.children_component_id
              (tecs_children_mirror_bytes old_children) SIZEOF_CHILDREN
          else
            let w := tecs_remove_children_entry w old_parent
            tecs_unset w old_parent w.children_component_id

/-- tecs_remove_child: verify the child really has this parent, unset its
Parent component, then remove it from the parent's children list
(swap-with-last in the array) and mirror or drop the Children component. -/
def tecs_remove_child (w : TecsWorld) (parent child : TecsEntity) : TecsWorld :=
  if ¬ tecs_entity_exists w parent ∨ ¬ tecs_entity_exists w child then w
  else
    match tecs_get_parent_value w child with
    | none => w
    | some cp =>
        if cp ≠ parent then w
        else
          let w := tecs_unset w child w.parent_component_id
          match tecs_find_children w parent with
          | none => w
          | some children =>
              match children.entities.findIdx? (fun e => e = child) with
              | none => w
              | some i =>
                  let l := children.entities
                  let l := (l.set i (l.getD (l.length - 1) 0)).dropLast
                  let children := { children with entities := l }
                  if 0 < l.length then
                    let w := tecs_store_children w parent children
                    tecs_set w parent w.children_component_id
                      (tecs_children_mirror_bytes children) SIZEOF_CHILDREN
                  else
                    let w := tecs_remove_children_entry w parent
                    tecs_unset w parent w.children_component_id

/-- tecs_add_child: refuse on missing entities, `parent == child`, or a cycle
detected by the bounded ancestor walk; detach from any previous parent; set
the child's Parent component; append to the parent's children list (doubling
its capacity when full) and mirror the list into the Children component. -/
def tecs_add_child (w : TecsWorld) (parent child : TecsEntity) : TecsWorld :=
  if ¬ tecs_entity_exists w parent ∨ ¬ tecs_entity_exists w child ∨ parent = child then w
  else if tecs_is_ancestor_of w child parent then w
  else
    let current_parent := tecs_get_parent_value w child
    match current_parent with
    | some cp =>
        if cp = parent then w
        else tecs_add_child_attach (tecs_detach_from_old_parent w cp child) parent child
    | none => tecs_add_child_attach w parent child
where
  /-- Attach steps shared by both branches (set Parent, append to children,
  mirror). -/
  tecs_add_child_attach (w : TecsWorld) (parent child : TecsEntity) : TecsWorld :=
    let w := tecs_set w child w.parent_component_id (natToBytes parent 8) SIZEOF_PARENT
    let p := tecs_ensure_children w parent
    let children := p.1
    let w := p.2
    let children :=
      if children.capacity ≤ children.entities.length then
        { children with capacity := children.capacity * 2 }
      else children
    let children := { children with entities := children.entities ++ [child] }
    let w := tecs_store_children w parent children
    tecs_set w parent w.children_component_id (tecs_children_mirror_bytes children) SIZEOF_CHILDREN

/-! ## Scheduling layer (`tinyecs_bevy.h`)

The app model covers what claims C4-C6 exercise: stages, the system builder
with label resolution, the topological sort, update's stage loop, event
channels and the buffer swap.  System callbacks (`tbevy_system_fn_t`) are
opaque C function pointers; they are modelled as world transformers
`TecsWorld → TecsWorld` — a system's direct world mutations and the net effect
of its applied Commands buffer are world mutations (the command applier only
issues tecs_set/tecs_unset/tecs_entity_delete; the resource, event and
observer command tags are no-ops in this source).  Run conditions are
modelled as world predicates.  Scheduler-level actions of one
`tbevy_app_update` are recorded in a ghost trace (`TbevyEv`) in the order the
C code performs them: a `stage` event when a stage's systems are run, a
`swap` event when `tbevy_app_clear_events` swaps one channel's buffers, and a
`tick` event for its `tecs_world_update` call. -/

/-- Generic exact-key lookup (`tbevy_hashmap_get`; the hashmap is only used
with distinct keys, see the modelling note at the top). -/
def assocGet (m : List (Nat × α)) (k : Nat) : Option α :=
  (m.find? (fun p => p.1 = k)).map (·.2)

/-- Generic insert-or-overwrite (`tbevy_hashmap_set`). -/
def assocSet (m : List (Nat × α)) (k : Nat) (v : α) : List (Nat × α) :=
  if (m.find? (fun p => p.1 = k)).isSome then
    m.map (fun p => if p.1 = k then (k, v) else p)
  else m ++ [(k, v)]

/-- tbevy_hash_string: djb2 over the label's bytes, on uint64. -/
def tbevy_hash_string (s : List Nat) : Nat :=
  s.foldl (fun h c => (h * 32 + h + c) % 2 ^ 64) 5381

/-- tbevy_stage_s (`order` is written by add_stage but execution follows the
stage list order). -/
structure TbevyStage where
  id : Nat
  name : List Nat
  order : Int
deriving Repr, DecidableEq

/-- TBEVY_STAGE_* numeric ids. -/
def TBEVY_STAGE_STARTUP : Nat := 0

/-- TBEVY_STAGE_UPDATE. -/
def TBEVY_STAGE_UPDATE : Nat := 3

/-- tbevy_system_s.  `before_systems`/`after_systems` hold resolved targets
(indices into the app's `all_systems` store, standing for the C pointers);
`visited`/`visiting` are the sort's marks, which live in the system struct
and persist between sorts exactly as in C. -/
structure TbevySystem where
  fn : TecsWorld → TecsWorld
  label : List Nat
  stage : Option Nat
  before_systems : List Nat
  after_systems : List Nat
  run_conditions : List (TecsWorld → Bool)
  declaration_order : Nat
  visited : Bool
  visiting : Bool

/-- tbevy_event_channel_t (counts are the buffer list lengths; capacities are
allocation detail). -/
structure TbevyEventChannel where
  read_buffer : List (List Nat)
  write_buffer : List (List Nat)
  element_size : Nat
  epoch : Nat
deriving Repr, DecidableEq

/-- tbevy_app_s (the fields claims C4-C6 exercise). `stage_systems` is keyed
by stage index (the C key is the stage pointer), values are system indices. -/
structure TbevyApp where
  world : TecsWorld
  stages : List TbevyStage
  stage_systems : List (Nat × List Nat)
  all_systems : List TbevySystem
  labeled_systems : List (Nat × Nat)
  event_channels : List (Nat × TbevyEventChannel)
  startup_run : Bool
  system_declaration_counter : Nat

/-- tbevy_app_add_stage: append the stage (order := position) and create its
empty system list. -/
def tbevy_app_add_stage (app : TbevyApp) (st : TbevyStage) : TbevyApp :=
  let idx := app.stages.length
  { app with
    stages := app.stages ++ [{ st with order := Int.ofNat idx }]
    stage_systems := assocSet app.stage_systems idx [] }

/-- tbevy_app_new: fresh world and the six default stages in canonical order. -/
def tbevy_app_new : TbevyApp :=
  let app : TbevyApp :=
    { world := tecs_world_new
      stages := []
      stage_systems := []
      all_systems := []
      labeled_systems := []
      event_channels := []
      startup_run := false
      system_declaration_counter := 0 }
  let app := tbevy_app_add_stage app ⟨0, [83], 0⟩
  let app := tbevy_app_add_stage app ⟨1, [70], 0⟩
  let app := tbevy_app_add_stage app ⟨2, [80], 0⟩
  let app := tbevy_app_add_stage app ⟨3, [85], 0⟩
  let app := tbevy_app_add_stage app ⟨4, [79], 0⟩
  tbevy_app_add_stage app ⟨5, [76], 0⟩

/-- tbevy_app_add_system: allocate the system with default fields; the
returned index is the builder's system pointer. -/
def tbevy_app_add_system (app : TbevyApp) (fn : TecsWorld → TecsWorld) : Nat × TbevyApp :=
  let sys : TbevySystem :=
    { fn := fn, label := [], stage := none, before_systems := [], after_systems := []
      run_conditions := [], declaration_order := app.system_declaration_counter
      visited := false, visiting := false }
  (app.all_systems.length,
   { app with
     all_systems := app.all_systems ++ [sys]
     system_declaration_counter := app.system_declaration_counter + 1 })

/-- tbevy_system_in_stage. -/
def tbevy_system_in_stage (app : TbevyApp) (b : Nat) (stageIdx : Nat) : TbevyApp :=
  match app.all_systems.get? b with
  | none => app
  | some s => { app with all_systems := app.all_systems.set b { s with stage := some stageIdx } }

/-- tbevy_system_label: store the label and register it in `labeled_systems`
under its hash. -/
def tbevy_system_label (app : TbevyApp) (b : Nat) (label : List Nat) : TbevyApp :=
  match app.all_systems.get? b with
  | none => app
  | some s =>
      { app with
        all_systems := app.all_systems.set b { s with label := label }
        labeled_systems := assocSet app.labeled_systems (tbevy_hash_string label) b }

/-- tbevy_system_after: resolve the label now; unknown labels are silently
dropped. -/
def tbevy_system_after (app : TbevyApp) (b : Nat) (label : List Nat) : TbevyApp :=
  match assocGet app.labeled_systems (tbevy_hash_string label) with
  | none => app
  | some t =>
      match app.all_systems.get? b with
      | none => app
      | some s => { app with all_systems :=
          app.all_systems.set b { s with after_systems := s.after_systems ++ [t] } }

/-- tbevy_system_before: resolve the label now; unknown labels are silently
dropped. -/
def tbevy_system_before (app : TbevyApp) (b : Nat) (label : List Nat) : TbevyApp :=
  match assocGet app.labeled_systems (tbevy_hash_string label) with
  | none => app
  | some t =>
      match app.all_systems.get? b with
      | none => app
      | some s => { app with all_systems :=
          app.all_systems.set b { s with before_systems := s.before_systems ++ [t] } }

/-- tbevy_system_run_if. -/
def tbevy_system_run_if (app : TbevyApp) (b : Nat) (cond : TecsWorld → Bool) : TbevyApp :=
  match app.all_systems.get? b with
  | none => app
  | some s => { app with all_systems :=
      app.all_systems.set b { s with run_conditions := s.run_conditions ++ [cond] } }

/-- tbevy_system_build: default to the Update stage when none was given, then
append the system to its stage's list. -/
def tbevy_system_build (app : TbevyApp) (b : Nat) : TbevyApp :=
  match app.all_systems.get? b with
  | none => app
  | some s =>
      let s := if s.stage = none
        then { s with stage := app.stages.findIdx? (fun st => st.id = TBEVY_STAGE_UPDATE) }
        else s
      let app := { app with all_systems := app.all_systems.set b s }
      match s.stage with
      | none => app
      | some st =>
          match assocGet app.stage_systems st with
          | none => app
          | some l => { app with stage_systems := assocSet app.stage_systems st (l ++ [b]) }

/-- tbevy_visit_system (depth-first visit of the dependency sort).  The state
is the system store (carrying the `visited`/`visiting` flags) plus the result
list.  Only `before_systems` is ever followed — `after_systems` is not
consulted anywhere in the sort.  `gas` bounds the recursion depth; the
`visiting` marks keep the C recursion depth at most the number of systems,
so `all.length + 1` always suffices. -/
def tbevy_visit_system (gas : Nat) (idx : Nat) (st : List TbevySystem × List Nat) :
    List TbevySystem × List Nat :=
  match gas with
  | 0 => st
  | gas + 1 =>
      match st.1.get? idx with
      | none => st
      | some sys =>
          if sys.visited then st
          else if sys.visiting then st
          else
            let st := (st.1.set idx { sys with visiting := true }, st.2)
            let st := sys.before_systems.foldl (fun st j => tbevy_visit_system gas j st) st
            match st.1.get? idx with
            | none => st
            | some sys2 =>
                (st.1.set idx { sys2 with visiting := false, visited := true }, st.2 ++ [idx])

/-- Flag reset of one listed system at the top of tbevy_sort_systems. -/
def tbevy_reset_flags (a : List TbevySystem) (i : Nat) : List TbevySystem :=
  match a.get? i with
  | some s => a.set i { s with visited := false, visiting := false }
  | none => a

/-- tbevy_sort_systems: reset the flags of the listed systems, then visit them
in list order; the sorted list replaces the stage's list. -/
def tbevy_sort_systems (all : List TbevySystem) (l : List Nat) :
    List TbevySystem × List Nat :=
  let all := l.foldl tbevy_reset_flags all
  l.foldl (fun st i => tbevy_visit_system (all.length + 1) i st) (all, [])

/-- tbevy_run_stage_systems: sort the stage's systems, then run each whose
run conditions all pass (its commands are applied as part of its effect). -/
def tbevy_run_stage_systems (app : TbevyApp) (stageIdx : Nat) : TbevyApp :=
  match assocGet app.stage_systems stageIdx with
  | none => app
  | some l =>
      if l.length = 0 then app
      else
        let p := tbevy_sort_systems app.all_systems l
        let app := { app with
          all_systems := p.1
          stage_systems := assocSet app.stage_systems stageIdx p.2 }
        p.2.foldl
          (fun app i =>
            match app.all_systems.get? i with
            | none => app
            | some sys =>
                if sys.run_conditions.all (fun c => c app.world) then
                  { app with world := sys.fn app.world }
                else app)
          app

/-- Ghost trace of scheduler-level actions during one update. -/
inductive TbevyEv
  | stage (i : Nat)
  | swap (tid : Nat)
  | tick
deriving Repr, DecidableEq

/-- tbevy_app_run_startup: run the Startup stage once. -/
def tbevy_app_run_startup (app : TbevyApp) : TbevyApp × List TbevyEv :=
  if app.startup_run then (app, [])
  else
    let p :=
      match app.stages.findIdx? (fun st => st.id = TBEVY_STAGE_STARTUP) with
      | some i => (tbevy_run_stage_systems app i, [TbevyEv.stage i])
      | none => (app, ([] : List TbevyEv))
    ({ p.1 with startup_run := true }, p.2)

/-- tbevy_app_send_event: append to the channel's write buffer, creating the
channel on first send. -/
def tbevy_app_send_event (app : TbevyApp) (tid : Nat) (data : List Nat) (size : Nat) :
    TbevyApp :=
  match assocGet app.event_channels tid with
  | none =>
      { app with event_channels := app.event_channels ++
          [(tid, { read_buffer := [], write_buffer := [data.take size]
                   element_size := size, epoch := 0 })] }
  | some ch =>
      { app with event_channels := app.event_channels.map (fun p =>
          if p.1 = tid then
            (tid, { ch with write_buffer := ch.write_buffer ++ [data.take size] })
          else p) }

/-- tbevy_app_read_events: the callback is invoked once per event of the read
buffer, in order; the delivered payload list is returned. -/
def tbevy_app_read_events_list (app : TbevyApp) (tid : Nat) : List (List Nat) :=
  match assocGet app.event_channels tid with
  | none => []
  | some ch => ch.read_buffer

/-- Events of type `tid` sent and not yet swapped (the write buffer). -/
def tbevy_pending_events (app : TbevyApp) (tid : Nat) : List (List Nat) :=
  match assocGet app.event_channels tid with
  | none => []
  | some ch => ch.write_buffer

/-- tbevy_app_clear_events: swap every channel's buffers; the new write buffer
is empty.  One `swap` trace event per channel. -/
def tbevy_app_clear_events (app : TbevyApp) : TbevyApp × List TbevyEv :=
  ({ app with event_channels := app.event_channels.map (fun p =>
      (p.1, { p.2 with
              read_buffer := p.2.write_buffer
              write_buffer := []
              epoch := p.2.epoch + 1 })) },
   app.event_channels.map (fun p => TbevyEv.swap p.1))

/-- One step of tbevy_app_update's stage loop: run the stage unless it is the
Startup stage. -/
def tbevy_update_stage_step (acc : TbevyApp × List TbevyEv) (p : Nat × TbevyStage) :
    TbevyApp × List TbevyEv :=
  if p.2.id ≠ TBEVY_STAGE_STARTUP then
    (tbevy_run_stage_systems acc.1 p.1, acc.2 ++ [TbevyEv.stage p.1])
  else acc

/-- tbevy_app_update: run startup if it has not run, then every non-Startup
stage in stage-list order, then swap the event buffers
(tbevy_app_clear_events), and finally advance the world tick
(tecs_world_update). -/
def tbevy_app_update (app : TbevyApp) : TbevyApp × List TbevyEv :=
  let s := if ¬ app.startup_run then tbevy_app_run_startup app else (app, [])
  let r := s.1.stages.enum.foldl tbevy_update_stage_step (s.1, s.2)
  let c := tbevy_app_clear_events r.1
  ({ c.1 with world := tecs_world_update c.1.world }, r.2 ++ c.2 ++ [TbevyEv.tick])

/-! ## Concrete scenarios used by the claims -/

/-- Claims C1/C2 trace: two fresh entities in a new world. -/
def c12_build : Option (TecsEntity × TecsEntity × TecsWorld) := do
  let (e1, w) ← tecs_entity_new tecs_world_new
  let (e2, w) ← tecs_entity_new w
  pure (e1, e2, w)

/-- World of the C1/C2 trace after deleting the first entity (handle 0), which
occupied row 0 of the root chunk while handle 1 occupied row 1. -/
def c12_afterDelete : TecsWorld :=
  match c12_build with
  | some (e1, _, w) => tecs_entity_delete w e1
  | none => tecs_world_new

/-- Claim C3 trace: spawn, despawn, spawn (recycling the index and bumping its
generation), then clear.  The follow-up tecs_entity_new is examined by the
claim theorem. -/
def c3_afterClear : Option TecsWorld := do
  let (e1, w) ← tecs_entity_new tecs_world_new
  let w := tecs_entity_delete w e1
  let (_, w) ← tecs_entity_new w
  pure (tecs_world_clear w)

/-- Claim C8 scenario: a dummy entity (so no live handle equals the NULL
handle 0), then R (1), M1 (2), L (3), LL (4), with hierarchy
R → M1 → L → LL built by tecs_add_child. -/
def c8_build : Option TecsWorld := do
  let (_, w) ← tecs_entity_new tecs_world_new
  let (r, w) ← tecs_entity_new w
  let (m1, w) ← tecs_entity_new w
  let (l, w) ← tecs_entity_new w
  let (ll, w) ← tecs_entity_new w
  let w := tecs_add_child w m1 l
  let w := tecs_add_child w l ll
  pure (tecs_add_child w r m1)

/-- C8 pre-state (R → M1 → L → LL). -/
def c8_pre : TecsWorld := c8_build.getD tecs_world_new

/-- C8 post-state: the completed hierarchy operation `remove_child(M1, L)`. -/
def c8_post : TecsWorld := tecs_remove_child c8_pre 2 3

/-- Claim C9 scenario (spec S2/S3): register Position and Velocity (8 bytes
each), spawn 8 entities, give all of them Position and the first five also
Velocity. -/
def c9_build : Option (Nat × Nat × TecsWorld) := do
  let p := tecs_register_component tecs_world_new [80] 8
  let v := tecs_register_component p.2 [86] 8
  let (e0, w) ← tecs_entity_new v.2
  let (e1, w) ← tecs_entity_new w
  let (e2, w) ← tecs_entity_new w
  let (e3, w) ← tecs_entity_new w
  let (e4, w) ← tecs_entity_new w
  let (e5, w) ← tecs_entity_new w
  let (e6, w) ← tecs_entity_new w
  let (e7, w) ← tecs_entity_new w
  let d : List Nat := [1, 2, 3, 4, 5, 6, 7, 8]
  let w := tecs_set w e0 p.1 d 8
  let w := tecs_set w e0 v.1 d 8
  let w := tecs_set w e1 p.1 d 8
  let w := tecs_set w e1 v.1 d 8
  let w := tecs_set w e2 p.1 d 8
  let w := tecs_set w e2 v.1 d 8
  let w := tecs_set w e3 p.1 d 8
  let w := tecs_set w e3 v.1 d 8
  let w := tecs_set w e4 p.1 d 8
  let w := tecs_set w e4 v.1 d 8
  let w := tecs_set w e5 p.1 d 8
  let w := tecs_set w e6 p.1 d 8
  let w := tecs_set w e7 p.1 d 8
  pure (p.1, v.1, w)

/-- Summed row count over all chunks produced by iterating the built query
With(Position) ∧ With(Velocity) (`both = true`) or
With(Position) ∧ Without(Velocity) (`both = false`) on the C9 world. -/
def c9_sum (both : Bool) : Nat :=
  match c9_build with
  | none => 1000
  | some (pid, vid, w) =>
      let q := tecs_query_with tecs_query_new pid
      let q := if both then tecs_query_with q vid else tecs_query_without q vid
      let p := tecs_query_iter_init w q
      tecs_iter_sum_counts w p.1 p.2 64

/-- Claim C5/C6 scenario app: a fresh app with one event (bytes `[7]`, size 1)
sent on channel 1 before the first update. -/
def c5_app : TbevyApp := tbevy_app_send_event tbevy_app_new 1 [7] 1

/-- Decidable rendering of claim C5 at one trace: the scheduler increments the
tick exactly once, after every stage run and before every event-buffer swap. -/
def c5_claim_check (tr : List TbevyEv) : Bool :=
  let tickIdx := tr.findIdx (fun e => e == TbevyEv.tick)
  (tr.count TbevyEv.tick == 1) &&
  tr.enum.all (fun p =>
    match p.2 with
    | TbevyEv.stage _ => decide (p.1 < tickIdx)
    | TbevyEv.swap _ => decide (tickIdx < p.1)
    | TbevyEv.tick => true)

/-- Claim C4 counterexample app: in the Update stage, system 0 is labelled
"y" and system 1 then declares before("y") — the spec reads this as
"system 1 must run before system 0". -/
def c4_app : TbevyApp :=
  let a := tbevy_app_new
  let p := tbevy_app_add_system a id
  let a := tbevy_system_in_stage p.2 p.1 3
  let a := tbevy_system_label a p.1 [121]
  let a := tbevy_system_build a p.1
  let q := tbevy_app_add_system a id
  let a := tbevy_system_in_stage q.2 q.1 3
  let a := tbevy_system_before a q.1 [121]
  tbevy_system_build a q.1

/-- The C4 counterexample's Update-stage system list. -/
def c4_stage_list : List Nat := (assocGet c4_app.stage_systems 3).getD []

/-- Claim C4 witness app (spec scenario S6): systems A (label "a"),
B (label "b", after "a") and C (after "b"), all in Update. -/
def c4_s6_app : TbevyApp :=
  let a := tbevy_app_new
  let p := tbevy_app_add_system a id
  let a := tbevy_system_label (tbevy_system_in_stage p.2 p.1 3) p.1 [97]
  let a := tbevy_system_build a p.1
  let q := tbevy_app_add_system a id
  let a := tbevy_system_label (tbevy_system_in_stage q.2 q.1 3) q.1 [98]
  let a := tbevy_system_after a q.1 [97]
  let a := tbevy_system_build a q.1
  let r := tbevy_app_add_system a id
  let a := tbevy_system_after (tbevy_system_in_stage r.2 r.1 3) r.1 [98]
  tbevy_system_build a r.1

/-- Claims C7/C10 witness scenario: register a 2-byte component C, spawn one
entity and give it C (this set transitions the entity out of the root
archetype, so C is present afterwards). -/
def c710_build : Option (Nat × TecsWorld) := do
  let p := tecs_register_component tecs_world_new [67] 2
  let (e, w) ← tecs_entity_new p.2
  pure (p.1, tecs_set w e p.1 [1, 2] 2)

/-- Component id of the witness scenario's component C. -/
def c710_cid : Nat := (c710_build.map (fun p => p.1)).getD 0

/-- Witness scenario world with C present on entity 0. -/
def c710_w : TecsWorld := (c710_build.map (fun p => p.2)).getD tecs_world_new

/-! ## Claim theorems -/

set_option maxRecDepth 20000

/-- C1: REFUTED (code bug).  The claim says that after a completed despawn
that removed an entity from a non-last row, invariant I2 holds: every row
i < count of every chunk holds a handle resolving to a record at exactly that
row.  In the two-entity world `c12_afterDelete` (handles 0 and 1; handle 0
despawned from row 0 while row 1 was the last occupied row), the root chunk
has count 1 and row 0 holds handle 1, yet handle 1 no longer resolves through
the entity index at all (`tecs_sparse_set_get` returns none): the source's
`tecs_archetype_remove_entity` never updates the swapped entity's record, and
`tecs_sparse_set_remove` additionally bumps the generation of the *swapped*
entity's index instead of the removed one's. -/
theorem C1_swap_remove_stale_record :
    c12_build.isSome = true ∧
    (storeGet (c12_afterDelete.arch c12_afterDelete.root_archetype).chunks
      default 0).count = 1 ∧
    storeGet (storeGet (c12_afterDelete.arch c12_afterDelete.root_archetype).chunks
      default 0).entities 0 0 = 1 ∧
    tecs_sparse_set_get c12_afterDelete.entities 1 = none := by
  exact ⟨by decide, by decide, by decide, by decide⟩

/-- C2: REFUTED (code bug).  The claim says every lookup with a deleted handle
fails afterwards.  In `c12_afterDelete` (handles 0 and 1 spawned, handle 0
deleted), `tecs_entity_exists` still returns true for the deleted handle 0 and
returns false for the live handle 1: `tecs_sparse_set_remove` increments
`generations[swapped_idx]` (the index of the entity that was moved in the dense
array) instead of `generations[idx]` (the removed one), so the deleted handle
keeps passing the generation check and the innocent survivor starts failing
it.  The repo's own test (test_core_api.c, test_entity_delete) asserts the
opposite of what the code does. -/
theorem C2_delete_lookup_still_succeeds :
    c12_build.isSome = true ∧
    tecs_entity_exists c12_afterDelete 0 = true ∧
    tecs_entity_exists c12_afterDelete 1 = false := by
  exact ⟨by decide, by decide, by decide⟩

/-- C3: REFUTED (code bug).  After `tecs_world_clear` the entity count and
tick are indeed 0, but a subsequent `tecs_entity_new` does NOT succeed on the
trace spawn/despawn/spawn/clear: `tecs_world_clear` resets sparse, dense and
recycled structures but leaves `generations` untouched and `dense_count`
grows from 0, so the first post-clear spawn writes through a record pointer
obtained from a stale sparse slot; concretely `tecs_sparse_set_create`
returns a handle whose record lookup fails (modelled as `tecs_entity_new`
returning none; the C build crashes with a null-pointer write in
`tecs_archetype_add_entity`, tinyecs.h:1116). -/
theorem C3_spawn_after_clear_fails :
    ∃ w, c3_afterClear = some w ∧
      tecs_world_entity_count w = 0 ∧ w.tick = 0 ∧
      tecs_entity_new w = none := by
  refine ⟨c3_afterClear.getD tecs_world_new, by decide, by decide, by decide, by decide⟩

/-- C8: REFUTED (code bug).  The claim says the parent-child relation is a
forest (acyclic) after every completed hierarchy operation.  Build dummy(0),
R(1), M1(2), L(3), LL(4) with add_child(M1,L), add_child(L,LL),
add_child(R,M1) — the pre-state records parent(M1)=R and parent(L)=M1.  The
completed hierarchy operation `tecs_remove_child(M1, L)` then leaves M1 as its
own parent (parent(M1)=M1, and M1 is its own ancestor): the archetype
transitions inside `tecs_unset` use swap-remove without updating the swapped
entity's record, so the Children-mirror bookkeeping reads and writes the wrong
rows and corrupts the Parent column.  The same self-loop is observable in the
compiled C source. -/
theorem C8_remove_child_breaks_forest :
    c8_build.isSome = true ∧
    tecs_get_parent c8_pre 2 = 1 ∧
    tecs_get_parent c8_pre 3 = 2 ∧
    tecs_has_parent c8_post 2 = true ∧
    tecs_get_parent c8_post 2 = 2 ∧
    tecs_is_ancestor_of c8_post 2 2 = true := by
  exact ⟨by decide, by decide, by decide, by decide, by decide, by decide⟩

/-- C9: CONFIRMED.  With Position and Velocity registered (8 bytes each),
5 entities holding both and 3 holding only Position, the built query
With(Position) ∧ With(Velocity) iterates chunks whose counts sum to 5, and
With(Position) ∧ Without(Velocity) sums to 3. -/
theorem C9_query_counts :
    c9_build.isSome = true ∧ c9_sum true = 5 ∧ c9_sum false = 3 := by
  exact ⟨by decide, by decide, by decide⟩

/-- C4 counterexample: the claim promises that an edge "X must run before Y"
declared by X's before(labelY) makes X run first.  In `c4_app`, system 0 is
labelled "y" and system 1 declares before("y"): the edge resolved (system 1's
`before_systems = [0]`), the Update stage list is [0, 1], yet
`tbevy_sort_systems` keeps the order [0, 1] — the declaring system 1 runs
*after* its before-target 0, because `tbevy_visit_system` emits the systems
listed in `before_systems` first, inverting every before edge (and ignores
`after_systems` entirely). -/
theorem C4_before_edge_inverted :
    c4_stage_list = [0, 1] ∧
    (c4_app.all_systems.get? 1).map (fun s => s.before_systems) = some [0] ∧
    (tbevy_sort_systems c4_app.all_systems c4_stage_list).2 = [0, 1] := by
  exact ⟨by decide, by decide, by decide⟩

/-- C5 counterexample: the claim says the tick is incremented after all
stages and *before* the event-buffer swap.  The ghost trace of one
`tbevy_app_update` on `c5_app` (one event channel, id 1) is
[stage 0, …, stage 5, swap 1, tick]: the swap happens before the tick, so the
decidable rendering `c5_claim_check` of the claimed ordering evaluates to
false.  The source's `tbevy_app_update` calls `tbevy_app_clear_events`
*before* `tecs_world_update`. -/
theorem C5_tick_after_swap :
    (tbevy_app_update c5_app).2 =
      [TbevyEv.stage 0, TbevyEv.stage 1, TbevyEv.stage 2, TbevyEv.stage 3,
       TbevyEv.stage 4, TbevyEv.stage 5, TbevyEv.swap 1, TbevyEv.tick] ∧
    c5_claim_check (tbevy_app_update c5_app).2 = false := by
  exact ⟨by decide, by decide⟩

/-! ## Store and scheduler lemmas -/

theorem storeGet_storeSet_self (m : List (Nat × α)) (d v : α) (i : Nat) :
    storeGet (storeSet m i v) d i = v := by
  simp [storeGet, storeSet, List.find?]

theorem storeGet_storeSet_ne (m : List (Nat × α)) (d v : α) (i j : Nat) (h : j ≠ i) :
    storeGet (storeSet m i v) d j = storeGet m d j := by
  simp only [storeGet, storeSet, List.find?]
  rw [decide_eq_false (Ne.symm h)]

theorem assocGet_clear_map (m : List (Nat × TbevyEventChannel)) (k : Nat) :
    assocGet (m.map (fun p => (p.1,
        { p.2 with read_buffer := p.2.write_buffer, write_buffer := [],
                   epoch := p.2.epoch + 1 }))) k
      = (assocGet m k).map (fun ch =>
          { ch with read_buffer := ch.write_buffer, write_buffer := [],
                    epoch := ch.epoch + 1 }) := by
  induction m with
  | nil => rfl
  | cons x xs ih =>
      simp only [List.map_cons, assocGet, List.find?]
      by_cases h : x.1 = k
      · simp [h]
      · simp only [h, decide_False]
        exact ih

theorem tbevy_run_stage_systems_channels (app : TbevyApp) (i : Nat) :
    (tbevy_run_stage_systems app i).event_channels = app.event_channels := by
  unfold tbevy_run_stage_systems
  cases h : assocGet app.stage_systems i with
  | none => rfl
  | some l =>
      by_cases hl : l.length = 0
      · simp [hl]
      · simp only [hl, if_false]
        have hfold : ∀ (l₂ : List Nat) (a : TbevyApp),
            (l₂.foldl (fun app i =>
              match app.all_systems.get? i with
              | none => app
              | some sys =>
                  if sys.run_conditions.all (fun c => c app.world) then
                    { app with world := sys.fn app.world }
                  else app) a).event_channels = a.event_channels := by
          intro l₂
          induction l₂ with
          | nil => intro a; rfl
          | cons y ys ih =>
              intro a
              rw [List.foldl_cons, ih]
              cases a.all_systems.get? y with
              | none => rfl
              | some sys =>
                  by_cases hc : sys.run_conditions.all (fun c => c a.world)
                  · simp [hc]
                  · simp [hc]
        exact hfold _ _

theorem tbevy_app_run_startup_channels (app : TbevyApp) :
    (tbevy_app_run_startup app).1.event_channels = app.event_channels := by
  unfold tbevy_app_run_startup
  by_cases h : app.startup_run
  · simp [h]
  · simp only [h, if_false]
    cases app.stages.findIdx? (fun st => st.id = TBEVY_STAGE_STARTUP) with
    | none => rfl
    | some i => exact tbevy_run_stage_systems_channels app i

theorem tbevy_update_fold_channels (l : List (Nat × TbevyStage))
    (acc : TbevyApp × List TbevyEv) :
    ((List.foldl tbevy_update_stage_step acc l).1).event_channels
      = acc.1.event_channels := by
  induction l generalizing acc with
  | nil => rfl
  | cons x xs ih =>
      rw [List.foldl_cons, ih]
      unfold tbevy_update_stage_step
      split
      · exact tbevy_run_stage_systems_channels acc.1 x.1
      · rfl

theorem tbevy_app_update_channels (app : TbevyApp) :
    (tbevy_app_update app).1.event_channels
      = app.event_channels.map (fun p => (p.1,
          { p.2 with read_buffer := p.2.write_buffer, write_buffer := [],
                     epoch := p.2.epoch + 1 })) := by
  simp only [tbevy_app_update, tbevy_app_clear_events]
  rw [tbevy_update_fold_channels]
  split
  · rw [tbevy_app_run_startup_channels]
  · rfl

/-- C6: CONFIRMED.  Events live exactly one frame: for every app and channel,
the events readable after one `tbevy_app_update` are exactly the events that
were pending (sent, unswapped) before it, in send order — each is delivered
once per read pass — and after a further update with no sends the channel
reads empty.  (Systems cannot send events mid-update in this source: the
command buffer's event tags are no-ops.) -/
theorem C6_events_one_frame (app : TbevyApp) (tid : Nat) :
    tbevy_app_read_events_list (tbevy_app_update app).1 tid
      = tbevy_pending_events app tid ∧
    tbevy_app_read_events_list (tbevy_app_update (tbevy_app_update app).1).1 tid
      = [] := by
  have hm : ∀ a : TbevyApp,
      tbevy_app_read_events_list (tbevy_app_update a).1 tid
        = tbevy_pending_events a tid := by
    intro a
    unfold tbevy_app_read_events_list tbevy_pending_events
    rw [tbevy_app_update_channels, assocGet_clear_map]
    cases assocGet a.event_channels tid <;> rfl
  refine ⟨hm app, ?_⟩
  rw [hm ((tbevy_app_update app).1)]
  unfold tbevy_pending_events
  rw [tbevy_app_update_channels, assocGet_clear_map]
  cases assocGet app.event_channels tid <;> rfl

/-- C5 (amended): in every `tbevy_app_update` the trace decomposes as stage
runs, then the event-buffer swaps, then exactly one tick advance — i.e. the
tick is incremented exactly once, after all stages, but *after* (not before)
the buffer swaps. -/
theorem C5_amended_tick_order (app : TbevyApp) :
    ∃ S W, (tbevy_app_update app).2 = S ++ W ++ [TbevyEv.tick] ∧
      (∀ e ∈ S, ∃ i, e = TbevyEv.stage i) ∧
      (∀ e ∈ W, ∃ t, e = TbevyEv.swap t) ∧
      (tbevy_app_update app).2.count TbevyEv.tick = 1 := by
  have hstart : ∀ a : TbevyApp,
      ∀ e ∈ ((if ¬ a.startup_run then tbevy_app_run_startup a else (a, [])).2),
        ∃ i, e = TbevyEv.stage i := by
    intro a e he
    split at he
    · unfold tbevy_app_run_startup at he
      split at he
      · simp at he
      · cases hfi : a.stages.findIdx? (fun st => st.id = TBEVY_STAGE_STARTUP) with
        | none => rw [hfi] at he; simp at he
        | some i =>
            rw [hfi] at he
            simp only [List.mem_singleton] at he
            exact ⟨i, he⟩
    · simp at he
  have hfold : ∀ (l : List (Nat × TbevyStage)) (acc : TbevyApp × List TbevyEv),
      (∀ e ∈ acc.2, ∃ i, e = TbevyEv.stage i) →
      ∀ e ∈ (List.foldl tbevy_update_stage_step acc l).2, ∃ i, e = TbevyEv.stage i := by
    intro l
    induction l with
    | nil => intro acc h; exact h
    | cons x xs ih =>
        intro acc h
        rw [List.foldl_cons]
        apply ih
        intro e he
        unfold tbevy_update_stage_step at he
        split at he
        · rcases List.mem_append.mp he with h1 | h1
          · exact h e h1
          · simp only [List.mem_singleton] at h1
            exact ⟨x.1, h1⟩
        · exact h e he
  have main : ∃ S W, (tbevy_app_update app).2 = S ++ W ++ [TbevyEv.tick] ∧
      (∀ e ∈ S, ∃ i, e = TbevyEv.stage i) ∧
      (∀ e ∈ W, ∃ t, e = TbevyEv.swap t) := by
    refine ⟨_, _, rfl, ?_, ?_⟩
    · exact hfold _ _ (hstart app)
    · intro e he
      simp only [tbevy_app_clear_events, List.mem_map] at he
      obtain ⟨p, _, hp⟩ := he
      exact ⟨p.1, hp.symm⟩
  obtain ⟨S, W, heq, hS, hW⟩ := main
  refine ⟨S, W, heq, hS, hW, ?_⟩
  rw [heq, List.count_append, List.count_append]
  have h1 : S.count TbevyEv.tick = 0 := by
    rw [List.count_eq_zero]
    intro hmem
    obtain ⟨i, hi⟩ := hS _ hmem
    exact absurd hi (by simp)
  have h2 : W.count TbevyEv.tick = 0 := by
    rw [List.count_eq_zero]
    intro hmem
    obtain ⟨t, ht⟩ := hW _ hmem
    exact absurd ht (by simp)
  rw [h1, h2]
  rfl

/-! ## Sort lemmas for claim C4 -/

theorem tbevy_reset_flags_length (a : List TbevySystem) (i : Nat) :
    (tbevy_reset_flags a i).length = a.length := by
  unfold tbevy_reset_flags
  cases a.get? i with
  | none => rfl
  | some s => exact List.length_set a i _

theorem tbevy_reset_fold_length (l : List Nat) (a : List TbevySystem) :
    (l.foldl tbevy_reset_flags a).length = a.length := by
  induction l generalizing a with
  | nil => rfl
  | cons x xs ih => rw [List.foldl_cons, ih, tbevy_reset_flags_length]

theorem tbevy_reset_flags_get (a : List TbevySystem) (i j : Nat) :
    (tbevy_reset_flags a i).get? j =
      if j = i then (a.get? j).map (fun s => { s with visited := false, visiting := false })
      else a.get? j := by
  unfold tbevy_reset_flags
  cases h : a.get? i with
  | none =>
      by_cases hj : j = i
      · subst hj; rw [h, if_pos rfl]; rfl
      · rw [if_neg hj]
  | some s =>
      by_cases hj : j = i
      · subst hj
        obtain ⟨hlt, -⟩ := List.get?_eq_some.mp h
        rw [List.get?_set_eq_of_lt _ hlt, if_pos rfl, h]
        rfl
      · rw [List.get?_set_ne _ _ (fun he => hj he.symm), if_neg hj]

theorem tbevy_reset_fold_get (l : List Nat) (a : List TbevySystem) (j : Nat) :
    (l.foldl tbevy_reset_flags a).get? j =
      if j ∈ l then (a.get? j).map (fun s => { s with visited := false, visiting := false })
      else a.get? j := by
  induction l generalizing a with
  | nil => simp
  | cons x xs ih =>
      rw [List.foldl_cons, ih, tbevy_reset_flags_get]
      by_cases hx : j = x
      · subst hx
        simp only [List.mem_cons, true_or, if_pos rfl, if_true]
        by_cases hmem : j ∈ xs
        · rw [if_pos hmem]
          cases a.get? j with
          | none => rfl
          | some s => rfl
        · rw [if_neg hmem]
      · rw [if_neg hx]
        simp only [List.mem_cons, hx, false_or]

theorem tbevy_visit_noop (gas idx : Nat) (st : List TbevySystem × List Nat)
    (h : st.1.get? idx = none ∨
      ∃ s, st.1.get? idx = some s ∧ s.visited = true) :
    tbevy_visit_system gas idx st = st := by
  cases gas with
  | zero => rfl
  | succ g =>
      rcases h with h | ⟨s, hs, hv⟩
      · simp only [tbevy_visit_system, h]
      · simp only [tbevy_visit_system, hs, hv, if_true]

theorem tbevy_visit_fold_noop (gas : Nat) (targets : List Nat)
    (st : List TbevySystem × List Nat)
    (h : ∀ j ∈ targets, st.1.get? j = none ∨
      ∃ s, st.1.get? j = some s ∧ s.visited = true) :
    targets.foldl (fun st j => tbevy_visit_system gas j st) st = st := by
  induction targets with
  | nil => rfl
  | cons x xs ih =>
      rw [List.foldl_cons, tbevy_visit_noop gas x st (h x (List.mem_cons_self x xs))]
      exact ih (fun j hj => h j (List.mem_cons_of_mem x hj))

theorem tbevy_visit_step (all2 : List TbevySystem) (pre : List Nat) (x : Nat)
    (st : List TbevySystem × List Nat) (s : TbevySystem) (gas : Nat)
    (h2 : st.2 = pre)
    (hget : ∀ i, st.1.get? i =
      if i ∈ pre then (all2.get? i).map (fun s => { s with visiting := false, visited := true })
      else all2.get? i)
    (hx : all2.get? x = some s)
    (hxf : s.visited = false) (hxg : s.visiting = false)
    (hnotpre : x ∉ pre)
    (htargets : ∀ j ∈ s.before_systems, j ∈ pre) :
    tbevy_visit_system (gas + 1) x st =
      (st.1.set x { s with visiting := false, visited := true }, pre ++ [x]) := by
  have hstx : st.1.get? x = some s := by rw [hget x, if_neg hnotpre, hx]
  obtain ⟨hxlt, -⟩ := List.get?_eq_some.mp hstx
  have harg : ∀ j ∈ s.before_systems,
      (st.1.set x { s with visited := false, visiting := true }).get? j = none ∨
      ∃ t, (st.1.set x { s with visited := false, visiting := true }).get? j = some t ∧
        t.visited = true := by
    intro j hj
    have hjp := htargets j hj
    have hjx : x ≠ j := fun h => hnotpre (by rw [h]; exact hjp)
    rw [List.get?_set_ne _ _ hjx, hget j, if_pos hjp]
    cases all2.get? j with
    | none => left; rfl
    | some t => right; exact ⟨_, rfl, rfl⟩
  simp only [tbevy_visit_system, hstx, hxf, hxg, Bool.false_eq_true, if_false]
  rw [tbevy_visit_fold_noop gas s.before_systems
    (st.1.set x { s with visited := false, visiting := true }, st.2) harg]
  have hset : (st.1.set x { s with visited := false, visiting := true }).get? x
      = some { s with visited := false, visiting := true } := by
    rw [List.get?_set_eq_of_lt]
    exact hxlt
  simp only [hset, List.set_set, h2]

theorem tbevy_sort_fold_keeps_order (all2 : List TbevySystem) (l : List Nat) (g : Nat)
    (hnd : l.Nodup)
    (hback2 : ∀ pre x rest, l = pre ++ x :: rest →
        ∀ s, all2.get? x = some s → ∀ j ∈ s.before_systems, j ∈ pre)
    (hflags : ∀ i ∈ l, ∃ s, all2.get? i = some s ∧ s.visited = false ∧ s.visiting = false) :
    ∀ (suf pre : List Nat) (st : List TbevySystem × List Nat),
      l = pre ++ suf → st.2 = pre →
      (∀ i, st.1.get? i =
        if i ∈ pre then
          (all2.get? i).map (fun s => { s with visiting := false, visited := true })
        else all2.get? i) →
      (suf.foldl (fun st i => tbevy_visit_system (g + 1) i st) st).2 = l := by
  intro suf
  induction suf with
  | nil =>
      intro pre st hl h2 _
      rw [List.foldl_nil, h2, hl, List.append_nil]
  | cons x rest ih =>
      intro pre st hl h2 hget
      rw [List.foldl_cons]
      have hxl : x ∈ l := by
        rw [hl]; exact List.mem_append_right _ (List.mem_cons_self x rest)
      obtain ⟨s, hs, hsf, hsg⟩ := hflags x hxl
      have hnd2 := hnd
      rw [hl] at hnd2
      have hx_notpre : x ∉ pre := by
        intro hmem
        exact (List.nodup_append.mp hnd2).2.2 hmem (List.mem_cons_self x rest)
      have htg : ∀ j ∈ s.before_systems, j ∈ pre := hback2 pre x rest hl s hs
      rw [tbevy_visit_step all2 pre x st s g h2 hget hs hsf hsg hx_notpre htg]
      have hstx : st.1.get? x = some s := by rw [hget x, if_neg hx_notpre, hs]
      obtain ⟨hxlt, -⟩ := List.get?_eq_some.mp hstx
      apply ih (pre ++ [x])
      · rw [hl, List.append_assoc]
        rfl
      · rfl
      · intro i
        by_cases hix : i = x
        · subst hix
          rw [List.get?_set_eq_of_lt _ hxlt, hs]
          rw [if_pos (List.mem_append_right _ (List.mem_cons_self i []))]
          rfl
        · rw [List.get?_set_ne _ _ (fun he => hix he.symm), hget i]
          by_cases hip : i ∈ pre
          · rw [if_pos hip, if_pos (List.mem_append_left _ hip)]
          · rw [if_neg hip, if_neg ?_]
            intro hmem
            rcases List.mem_append.mp hmem with h | h
            · exact hip h
            · exact hix (List.mem_singleton.mp h)

/-- C4 (amended): `tbevy_sort_systems` keeps the stage's systems in declared
(attachment) order whenever every resolved `before_systems` edge of a listed
system points at a system *earlier* in the list — in particular when ordering
was declared only through after(label), since after-edges are never consulted
by the sort.  Together with `C4_before_edge_inverted` this replaces the claimed
topological-order guarantee: the sort emits before-targets first (inverting
every before edge) and ignores after edges, so the run order is simply
declaration order in these cases. -/
theorem C4_amended_declaration_order (all : List TbevySystem) (l : List Nat)
    (hnd : l.Nodup)
    (hbnd : ∀ i ∈ l, i < all.length)
    (hback : ∀ k x s, l.get? k = some x → all.get? x = some s →
        ∀ j ∈ s.before_systems, ∃ m, m < k ∧ l.get? m = some j) :
    (tbevy_sort_systems all l).2 = l := by
  unfold tbevy_sort_systems
  have hget2 : ∀ i, (l.foldl tbevy_reset_flags all).get? i =
      if i ∈ l then
        (all.get? i).map (fun s => { s with visited := false, visiting := false })
      else all.get? i := fun i => tbevy_reset_fold_get l all i
  have hflags : ∀ i ∈ l, ∃ s, (l.foldl tbevy_reset_flags all).get? i = some s ∧
      s.visited = false ∧ s.visiting = false := by
    intro i hi
    have hlt := hbnd i hi
    rw [hget2 i, if_pos hi, List.get?_eq_get hlt]
    exact ⟨_, rfl, rfl, rfl⟩
  have hback2 : ∀ pre x rest, l = pre ++ x :: rest →
      ∀ s, (l.foldl tbevy_reset_flags all).get? x = some s →
      ∀ j ∈ s.before_systems, j ∈ pre := by
    intro pre x rest hl s hs j hj
    have hxl : x ∈ l := by
      rw [hl]; exact List.mem_append_right _ (List.mem_cons_self x rest)
    have hlt := hbnd x hxl
    rw [hget2 x, if_pos hxl, List.get?_eq_get hlt] at hs
    have hsb : s.before_systems = (all.get ⟨x, hlt⟩).before_systems := by
      have := congrArg (fun o => (Option.map (fun t => t.before_systems) o).getD []) hs.symm
      simpa using this
    have hlx : l.get? pre.length = some x := by
      rw [hl, List.get?_append_right (Nat.le_refl pre.length), Nat.sub_self]
      rfl
    have hjb : j ∈ (all.get ⟨x, hlt⟩).before_systems := by rw [← hsb]; exact hj
    obtain ⟨m, hm, hlm⟩ := hback pre.length x (all.get ⟨x, hlt⟩) hlx
      (List.get?_eq_get hlt) j hjb
    rw [hl, List.get?_append hm] at hlm
    exact List.get?_mem hlm
  exact tbevy_sort_fold_keeps_order (l.foldl tbevy_reset_flags all) l
    ((l.foldl tbevy_reset_flags all).length) hnd hback2 hflags l []
    (l.foldl tbevy_reset_flags all, []) rfl rfl (by intro i; simp)

/-- Witness for the amended C4 theorem: the spec's S6 app (A labelled "a";
B labelled "b" after "a"; C after "b", all in Update) satisfies its
hypotheses vacuously (after-edges produce no before_systems entries), and the
sort keeps the declaration order [0, 1, 2]. -/
theorem C4_amended_witness :
    (tbevy_sort_systems c4_s6_app.all_systems
        ((assocGet c4_s6_app.stage_systems 3).getD [])).2
      = (assocGet c4_s6_app.stage_systems 3).getD [] := by
  apply C4_amended_declaration_order
  · decide
  · decide
  · intro k x s hx hs j hj
    have hl : (assocGet c4_s6_app.stage_systems 3).getD [] = [0, 1, 2] := by decide
    rw [hl] at hx
    have hxm : x ∈ [0, 1, 2] := List.get?_mem hx
    have hb : (c4_s6_app.all_systems.get? x).map (fun s => s.before_systems)
        = some [] := by
      fin_cases hxm <;> decide
    rw [hs] at hb
    have hbe : s.before_systems = [] := Option.some.inj hb
    rw [hbe] at hj
    exact absurd hj (List.not_mem_nil j)

/-! ## Byte-buffer lemmas -/

theorem writeBytes_get_out (src : List Nat) (d : TecsBuf) (off o : Nat)
    (h : o < off ∨ off + src.length ≤ o) :
    storeGet (writeBytes d off src) 0 o = storeGet d 0 o := by
  induction src generalizing d off with
  | nil => rfl
  | cons b rest ih =>
      show storeGet (writeBytes (storeSet d off b) (off + 1) rest) 0 o = _
      rw [ih (storeSet d off b) (off + 1)
        (by simp only [List.length_cons] at h; omega)]
      rw [storeGet_storeSet_ne]
      simp only [List.length_cons] at h
      omega

theorem writeBytes_get_in (src : List Nat) (d : TecsBuf) (off k : Nat)
    (h : k < src.length) :
    storeGet (writeBytes d off src) 0 (off + k) = src.getD k 0 := by
  induction src generalizing d off k with
  | nil => simp at h
  | cons b rest ih =>
      cases k with
      | zero =>
          show storeGet (writeBytes (storeSet d off b) (off + 1) rest) 0 (off + 0) = b
          rw [writeBytes_get_out rest _ (off + 1) (off + 0) (by omega), Nat.add_zero,
            storeGet_storeSet_self]
      | succ k2 =>
          show storeGet (writeBytes (storeSet d off b) (off + 1) rest) 0 (off + (k2 + 1))
            = rest.getD k2 0
          rw [show off + (k2 + 1) = (off + 1) + k2 by omega,
            ih (storeSet d off b) (off + 1) k2 (by simp at h; omega)]

theorem readBytes_writeBytes (src : List Nat) (d : TecsBuf) (off : Nat) :
    readBytes (writeBytes d off src) off src.length = src := by
  apply List.ext_get
  · simp [readBytes]
  · intro n h1 h2
    simp only [readBytes, List.get_map, List.get_range]
    rw [writeBytes_get_in src d off n h2]
    exact List.getD_eq_get src 0 h2

/-! ## The in-place branch of tecs_set -/

theorem tecs_set_inplace_eq (w : TecsWorld) (e : TecsEntity) (cid : Nat)
    (data : List Nat) (size : Nat) (di a k row ci : Nat)
    (hdi : tecs_sparse_set_get_idx w.entities e = some di)
    (hrec : storeGet w.entities.dense default di
      = ⟨some a, Int.ofNat k, Int.ofNat row⟩)
    (hfc : (tecs_archetype_find_component (w.arch a) cid).isSome = true)
    (hdc : tecs_data_component_find (w.arch a) cid = some ci) :
    tecs_set w e cid data size =
      w.setArch a
        { w.arch a with
          chunks := storeSet (w.arch a).chunks k
                      { storeGet (w.arch a).chunks default k with
                        columns := storeSet (storeGet (w.arch a).chunks default k).columns ci
                                     { storeGet (storeGet (w.arch a).chunks default k).columns
                                         default ci with
                                       storage_data := writeBytes
                                         (storeGet (storeGet (w.arch a).chunks default k).columns
                                           default ci).storage_data
                                         (row % TECS_CHUNK_SIZE * size) (data.take size)
                                       changed_ticks := storeSet
                                         (storeGet (storeGet (w.arch a).chunks default k).columns
                                           default ci).changed_ticks
                                         (row % TECS_CHUNK_SIZE) w.tick } } } := by
  obtain ⟨fc, hfc2⟩ := Option.isSome_iff_exists.mp hfc
  simp only [tecs_set, hdi, hrec, hfc2, hdc]
  rfl

theorem setArch_arch_self (w : TecsWorld) (i : Nat) (ar : TecsArchetype) :
    (w.setArch i ar).arch i = ar := by
  simp only [TecsWorld.setArch, TecsWorld.arch]
  exact storeGet_storeSet_self _ _ _ _

theorem setArch_arch_ne (w : TecsWorld) (i j : Nat) (ar : TecsArchetype) (h : j ≠ i) :
    (w.setArch i ar).arch j = w.arch j := by
  simp only [TecsWorld.setArch, TecsWorld.arch]
  exact storeGet_storeSet_ne _ _ _ _ _ h

/-- C10: CONFIRMED.  When entity `e`'s archetype `a` already stores data
component `cid` (record at dense slot `di`, chunk `k`, archetype-global row
`row`, data column `ci`), `tecs_set` overwrites exactly component `cid`'s
`size` bytes at the entity's in-chunk row `row % TECS_CHUNK_SIZE` and stamps
that row's changed tick with the current world tick; everything else is
untouched: the entity index (hence e's archetype/chunk/row record), world tick
and registries, every other archetype, every other chunk of `a`, the chunk's
entity list and count, every other column, the column's added ticks, every
other changed-tick entry, and every byte outside the written window. -/
theorem C10_set_inplace_frame (w : TecsWorld) (e : TecsEntity) (cid : Nat)
    (data : List Nat) (size : Nat) (di a k row ci : Nat)
    (hdi : tecs_sparse_set_get_idx w.entities e = some di)
    (hrec : storeGet w.entities.dense default di
      = ⟨some a, Int.ofNat k, Int.ofNat row⟩)
    (hfc : (tecs_archetype_find_component (w.arch a) cid).isSome = true)
    (hdc : tecs_data_component_find (w.arch a) cid = some ci)
    (hlen : data.length = size) :
    (tecs_set w e cid data size).entities = w.entities ∧
    (tecs_set w e cid data size).tick = w.tick ∧
    (tecs_set w e cid data size).archetype_table = w.archetype_table ∧
    (tecs_set w e cid data size).archetype_count = w.archetype_count ∧
    (tecs_set w e cid data size).component_registry = w.component_registry ∧
    (tecs_set w e cid data size).structural_change_version
      = w.structural_change_version ∧
    (∀ a2, a2 ≠ a → (tecs_set w e cid data size).arch a2 = w.arch a2) ∧
    ((tecs_set w e cid data size).arch a).components = (w.arch a).components ∧
    ((tecs_set w e cid data size).arch a).data_components
      = (w.arch a).data_components ∧
    ((tecs_set w e cid data size).arch a).entity_count = (w.arch a).entity_count ∧
    (∀ k2, k2 ≠ k → storeGet ((tecs_set w e cid data size).arch a).chunks default k2
      = storeGet (w.arch a).chunks default k2) ∧
    (storeGet ((tecs_set w e cid data size).arch a).chunks default k).count
      = (storeGet (w.arch a).chunks default k).count ∧
    (storeGet ((tecs_set w e cid data size).arch a).chunks default k).entities
      = (storeGet (w.arch a).chunks default k).entities ∧
    (∀ c2, c2 ≠ ci →
      storeGet (storeGet ((tecs_set w e cid data size).arch a).chunks default k).columns
          default c2
        = storeGet (storeGet (w.arch a).chunks default k).columns default c2) ∧
    (storeGet (storeGet ((tecs_set w e cid data size).arch a).chunks default k).columns
        default ci).added_ticks
      = (storeGet (storeGet (w.arch a).chunks default k).columns default ci).added_ticks ∧
    storeGet (storeGet (storeGet ((tecs_set w e cid data size).arch a).chunks
        default k).columns default ci).changed_ticks 0 (row % TECS_CHUNK_SIZE)
      = w.tick ∧
    (∀ r2, r2 ≠ row % TECS_CHUNK_SIZE →
      storeGet (storeGet (storeGet ((tecs_set w e cid data size).arch a).chunks
          default k).columns default ci).changed_ticks 0 r2
        = storeGet (storeGet (storeGet (w.arch a).chunks default k).columns
            default ci).changed_ticks 0 r2) ∧
    (∀ o, o < size →
      storeGet (storeGet (storeGet ((tecs_set w e cid data size).arch a).chunks
          default k).columns default ci).storage_data 0
          (row % TECS_CHUNK_SIZE * size + o)
        = data.getD o 0) ∧
    (∀ o, o < row % TECS_CHUNK_SIZE * size ∨ row % TECS_CHUNK_SIZE * size + size ≤ o →
      storeGet (storeGet (storeGet ((tecs_set w e cid data size).arch a).chunks
          default k).columns default ci).storage_data 0 o
        = storeGet (storeGet (storeGet (w.arch a).chunks default k).columns
            default ci).storage_data 0 o) := by
  rw [tecs_set_inplace_eq w e cid data size di a k row ci hdi hrec hfc hdc]
  refine ⟨rfl, rfl, rfl, rfl, rfl, rfl, ?_, ?_, ?_, ?_, ?_, ?_, ?_, ?_, ?_, ?_, ?_, ?_, ?_⟩
  · intro a2 h
    exact setArch_arch_ne _ _ _ _ h
  · rw [setArch_arch_self]
  · rw [setArch_arch_self]
  · rw [setArch_arch_self]
  · intro k2 h
    rw [setArch_arch_self]
    exact storeGet_storeSet_ne _ _ _ _ _ h
  · rw [setArch_arch_self]
    rw [show storeGet (storeSet (w.arch a).chunks k _) default k = _
      from storeGet_storeSet_self _ _ _ _]
  · rw [setArch_arch_self]
    rw [show storeGet (storeSet (w.arch a).chunks k _) default k = _
      from storeGet_storeSet_self _ _ _ _]
  · intro c2 h
    rw [setArch_arch_self]
    rw [show storeGet (storeSet (w.arch a).chunks k _) default k = _
      from storeGet_storeSet_self _ _ _ _]
    exact storeGet_storeSet_ne _ _ _ _ _ h
  · rw [setArch_arch_self]
    rw [show storeGet (storeSet (w.arch a).chunks k _) default k = _
      from storeGet_storeSet_self _ _ _ _]
    rw [show storeGet (storeSet (storeGet (w.arch a).chunks default k).columns ci _)
        default ci = _ from storeGet_storeSet_self _ _ _ _]
  · rw [setArch_arch_self]
    rw [show storeGet (storeSet (w.arch a).chunks k _) default k = _
      from storeGet_storeSet_self _ _ _ _]
    rw [show storeGet (storeSet (storeGet (w.arch a).chunks default k).columns ci _)
        default ci = _ from storeGet_storeSet_self _ _ _ _]
    exact storeGet_storeSet_self _ _ _ _
  · intro r2 h
    rw [setArch_arch_self]
    rw [show storeGet (storeSet (w.arch a).chunks k _) default k = _
      from storeGet_storeSet_self _ _ _ _]
    rw [show storeGet (storeSet (storeGet (w.arch a).chunks default k).columns ci _)
        default ci = _ from storeGet_storeSet_self _ _ _ _]
    exact storeGet_storeSet_ne _ _ _ _ _ h
  · intro o ho
    rw [setArch_arch_self]
    rw [show storeGet (storeSet (w.arch a).chunks k _) default k = _
      from storeGet_storeSet_self _ _ _ _]
    rw [show storeGet (storeSet (storeGet (w.arch a).chunks default k).columns ci _)
        default ci = _ from storeGet_storeSet_self _ _ _ _]
    rw [writeBytes_get_in (data.take size) _ (row % TECS_CHUNK_SIZE * size) o
      (by simp [List.length_take, hlen]; omega)]
    rw [← hlen, List.take_length]
  · intro o ho
    rw [setArch_arch_self]
    rw [show storeGet (storeSet (w.arch a).chunks k _) default k = _
      from storeGet_storeSet_self _ _ _ _]
    rw [show storeGet (storeSet (storeGet (w.arch a).chunks default k).columns ci _)
        default ci = _ from storeGet_storeSet_self _ _ _ _]
    refine writeBytes_get_out _ _ _ _ ?_
    rw [List.length_take, hlen, Nat.min_self]
    exact ho

/-- Witness for C10 on the concrete scenario world: entity 0 of `c710_w`
already has component C (2 bytes, column 0 of chunk 0 of archetype 1);
setting bytes [5, 9] leaves the entity index untouched, lands the two bytes
at the entity's row, and stamps the changed tick with the current world
tick. -/
theorem C10_set_inplace_frame_witness :
    (tecs_set c710_w 0 c710_cid [5, 9] 2).entities = c710_w.entities ∧
    storeGet (storeGet (storeGet ((tecs_set c710_w 0 c710_cid [5, 9] 2).arch 1).chunks
        default 0).columns default 0).storage_data 0 0 = 5 ∧
    storeGet (storeGet (storeGet ((tecs_set c710_w 0 c710_cid [5, 9] 2).arch 1).chunks
        default 0).columns default 0).storage_data 0 1 = 9 ∧
    storeGet (storeGet (storeGet ((tecs_set c710_w 0 c710_cid [5, 9] 2).arch 1).chunks
        default 0).columns default 0).changed_ticks 0 0 = c710_w.tick := by
  obtain ⟨h1, _, _, _, _, _, _, _, _, _, _, _, _, _, _, h16, _, h18, _⟩ :=
    C10_set_inplace_frame c710_w 0 c710_cid [5, 9] 2 0 1 0 0 0
      (by decide) (by decide) (by decide) (by decide) (by decide)
  exact ⟨h1, h18 0 (by decide), h18 1 (by decide), h16⟩

/-! ## Structural lemmas for claim C7 -/

theorem ofNat_emod_chunk (x : Nat) :
    ((Int.ofNat x) % (TECS_CHUNK_SIZE : Int)).toNat = x % TECS_CHUNK_SIZE := rfl

theorem toNat_ofNat_eq (n : Nat) : (Int.ofNat n).toNat = n := rfl

theorem tecs_pick_chunk_dcs (ar : TecsArchetype) :
    (tecs_archetype_pick_chunk ar).2.data_components = ar.data_components := by
  unfold tecs_archetype_pick_chunk
  cases (List.range ar.chunk_count).find?
      (fun k => (storeGet ar.chunks default k).count < TECS_CHUNK_SIZE) with
  | none => rfl
  | some k => rfl

theorem get_or_create_with_entities (w : TecsWorld) (cur cid size : Nat) :
    (tecs_world_get_or_create_archetype_with_component w cur cid size).2.entities
      = w.entities := by
  unfold tecs_world_get_or_create_archetype_with_component
  split
  · rfl
  · dsimp only
    split <;> rfl

theorem get_or_create_with_tick (w : TecsWorld) (cur cid size : Nat) :
    (tecs_world_get_or_create_archetype_with_component w cur cid size).2.tick
      = w.tick := by
  unfold tecs_world_get_or_create_archetype_with_component
  split
  · rfl
  · dsimp only
    split <;> rfl

theorem add_entity_entities (w : TecsWorld) (ai ent di t : Nat) :
    (tecs_archetype_add_entity w ai ent di t).entities
      = { w.entities with
          dense := storeSet w.entities.dense di
                     ⟨some ai, Int.ofNat (tecs_archetype_pick_chunk (w.arch ai)).1,
                       Int.ofNat (tecs_archetype_pick_chunk (w.arch ai)).2.entity_count⟩ } := rfl

theorem add_entity_arch_dcs (w : TecsWorld) (ai ent di t : Nat) :
    ((tecs_archetype_add_entity w ai ent di t).arch ai).data_components
      = (w.arch ai).data_components := by
  show (storeGet (storeSet w.archetypes ai _) default ai).data_components = _
  rw [storeGet_storeSet_self]
  exact tecs_pick_chunk_dcs (w.arch ai)

theorem foldl_preserves {β : Type} (P : TecsWorld → Prop) (f : TecsWorld → β → TecsWorld)
    (hf : ∀ x b, P x → P (f x b)) :
    ∀ (l : List β) (x : TecsWorld), P x → P (l.foldl f x) := by
  intro l
  induction l with
  | nil => intro x h; exact h
  | cons b bs ih => intro x h; rw [List.foldl_cons]; exact ih _ (hf x b h)

theorem copy_entities (w : TecsWorld) (sa sk sr da dk dr : Nat) :
    (tecs_copy_component_data w sa sk sr da dk dr).entities = w.entities := by
  unfold tecs_copy_component_data
  refine foldl_preserves (fun x => x.entities = w.entities) _ ?_ _ w rfl
  intro x i h
  dsimp only
  split
  · exact h
  · exact h

theorem copy_arch_dcs (w : TecsWorld) (sa sk sr da dk dr : Nat) :
    ((tecs_copy_component_data w sa sk sr da dk dr).arch da).data_components
      = ((w.arch da)).data_components := by
  unfold tecs_copy_component_data
  refine foldl_preserves
    (fun x => (x.arch da).data_components = (w.arch da).data_components) _ ?_ _ w rfl
  intro x i h
  dsimp only
  split
  · exact h
  · rw [setArch_arch_self]
    exact h

theorem copy_tick (w : TecsWorld) (sa sk sr da dk dr : Nat) :
    (tecs_copy_component_data w sa sk sr da dk dr).tick = w.tick := by
  unfold tecs_copy_component_data
  refine foldl_preserves (fun x => x.tick = w.tick) _ ?_ _ w rfl
  intro x i h
  dsimp only
  split
  · exact h
  · exact h

theorem data_find_congr (a b : TecsArchetype) (cid : Nat)
    (h : a.data_components = b.data_components) :
    tecs_data_component_find a cid = tecs_data_component_find b cid := by
  unfold tecs_data_component_find
  rw [h]

theorem remove_entity_entities (w : TecsWorld) (ai ck r : Nat) :
    (tecs_archetype_remove_entity w ai ck r).entities = w.entities := rfl

theorem remove_entity_arch_ne (w : TecsWorld) (ai ck r j : Nat) (h : j ≠ ai) :
    (tecs_archetype_remove_entity w ai ck r).arch j = w.arch j := by
  exact setArch_arch_ne w ai j _ h

theorem write_new_entities (v : TecsWorld) (n ck nr cid : Nat) (data : List Nat)
    (size : Nat) :
    (tecs_set_write_new v n ck nr cid data size).entities = v.entities := by
  unfold tecs_set_write_new
  split
  · rfl
  · rfl

theorem write_new_arch (v : TecsWorld) (n ck nr cid : Nat) (data : List Nat)
    (size ci : Nat) (hdc : tecs_data_component_find (v.arch n) cid = some ci) :
    (tecs_set_write_new v n ck nr cid data size).arch n
      = { v.arch n with
          chunks := storeSet (v.arch n).chunks ck
                      { storeGet (v.arch n).chunks default ck with
                        columns := storeSet (storeGet (v.arch n).chunks default ck).columns ci
                                     { storeGet (storeGet (v.arch n).chunks default ck).columns
                                         default ci with
                                       storage_data := writeBytes
                                         (storeGet (storeGet (v.arch n).chunks default ck).columns
                                           default ci).storage_data
                                         (nr * size) (data.take size)
                                       changed_ticks := storeSet
                                         (storeGet (storeGet (v.arch n).chunks default ck).columns
                                           default ci).changed_ticks nr v.tick
                                       added_ticks := storeSet
                                         (storeGet (storeGet (v.arch n).chunks default ck).columns
                                           default ci).added_ticks nr v.tick } } } := by
  unfold tecs_set_write_new
  rw [hdc]
  exact setArch_arch_self v n _

theorem tecs_get_chars (v : TecsWorld) (e : TecsEntity) (cid di n ck gr ci : Nat)
    (hdi : tecs_sparse_set_get_idx v.entities e = some di)
    (hrec : storeGet v.entities.dense default di = ⟨some n, Int.ofNat ck, Int.ofNat gr⟩)
    (hdc : tecs_data_component_find (v.arch n) cid = some ci) :
    tecs_get v e cid = some (readBytes
      (storeGet (storeGet (v.arch n).chunks default ck).columns default ci).storage_data
      (gr % TECS_CHUNK_SIZE * ((v.arch n).data_components.getD ci default).size)
      ((v.arch n).data_components.getD ci default).size) := by
  simp only [tecs_get, tecs_sparse_set_get, hdi, Option.map_some', hrec, hdc,
    toNat_ofNat_eq, ofNat_emod_chunk]

theorem readBytes_writeBytes_of_len (src : List Nat) (d : TecsBuf) (off n : Nat)
    (h : src.length = n) : readBytes (writeBytes d off src) off n = src := by
  rw [← h]
  exact readBytes_writeBytes src d off

theorem tecs_set_write_new_get (v : TecsWorld) (e : TecsEntity)
    (cid di n ck gr ci size : Nat) (data : List Nat) (a2 k2 r2 : Nat)
    (hdi : tecs_sparse_set_get_idx v.entities e = some di)
    (hrec : storeGet v.entities.dense default di = ⟨some n, Int.ofNat ck, Int.ofNat gr⟩)
    (hdc : tecs_data_component_find (v.arch n) cid = some ci)
    (hsz : ((v.arch n).data_components.getD ci default).size = size)
    (hlen : data.length = size)
    (hna : a2 ≠ n) :
    tecs_get (tecs_archetype_remove_entity
        (tecs_set_write_new v n ck (gr % TECS_CHUNK_SIZE) cid data size) a2 k2 r2) e cid
      = some data := by
  have hE : (tecs_archetype_remove_entity
      (tecs_set_write_new v n ck (gr % TECS_CHUNK_SIZE) cid data size) a2 k2 r2).entities
      = v.entities := by
    rw [remove_entity_entities, write_new_entities]
  have hA : (tecs_archetype_remove_entity
      (tecs_set_write_new v n ck (gr % TECS_CHUNK_SIZE) cid data size) a2 k2 r2).arch n
      = (tecs_set_write_new v n ck (gr % TECS_CHUNK_SIZE) cid data size).arch n :=
    remove_entity_arch_ne _ _ _ _ _ (Ne.symm hna)
  have hWA := write_new_arch v n ck (gr % TECS_CHUNK_SIZE) cid data size ci hdc
  have hdi2 : tecs_sparse_set_get_idx (tecs_archetype_remove_entity
      (tecs_set_write_new v n ck (gr % TECS_CHUNK_SIZE) cid data size) a2 k2 r2).entities e
      = some di := by rw [hE]; exact hdi
  have hrec2 : storeGet (tecs_archetype_remove_entity
      (tecs_set_write_new v n ck (gr % TECS_CHUNK_SIZE) cid data size) a2 k2 r2).entities.dense
      default di = ⟨some n, Int.ofNat ck, Int.ofNat gr⟩ := by rw [hE]; exact hrec
  have hdc2 : tecs_data_component_find ((tecs_archetype_remove_entity
      (tecs_set_write_new v n ck (gr % TECS_CHUNK_SIZE) cid data size) a2 k2 r2).arch n) cid
      = some ci := by rw [hA, hWA]; exact hdc
  rw [tecs_get_chars _ e cid di n ck gr ci hdi2 hrec2 hdc2]
  rw [hA, hWA]
  simp only [storeGet_storeSet_self]
  rw [show (({ v.arch n with
      chunks := storeSet (v.arch n).chunks ck
        { storeGet (v.arch n).chunks default ck with
          columns := storeSet (storeGet (v.arch n).chunks default ck).columns ci
            { storeGet (storeGet (v.arch n).chunks default ck).columns default ci with
              storage_data := writeBytes
                (storeGet (storeGet (v.arch n).chunks default ck).columns default ci).storage_data
                (gr % TECS_CHUNK_SIZE * size) (data.take size)
              changed_ticks := storeSet
                (storeGet (storeGet (v.arch n).chunks default ck).columns default ci).changed_ticks
                (gr % TECS_CHUNK_SIZE) v.tick
              added_ticks := storeSet
                (storeGet (storeGet (v.arch n).chunks default ck).columns default ci).added_ticks
                (gr % TECS_CHUNK_SIZE) v.tick } } } : TecsArchetype).data_components.getD ci
      default).size = size from hsz]
  rw [readBytes_writeBytes_of_len (data.take size) _ _ size
    (by rw [List.length_take, hlen, Nat.min_self])]
  rw [← hlen, List.take_length]

/-- C7: CONFIRMED.  set-then-get round-trips: for a live entity `e` (resolved
record at dense slot `di`, archetype `a`, chunk `k`, stored row `row`) and a
registered data component `cid` written with `size` bytes `data`,
`tecs_get (tecs_set w e cid data size) e cid` returns exactly `data` — both
when `a` already stores `cid` as a data component of size `size` (in-place
branch) and when it does not and the add-edge transition moves `e` to a new
archetype that stores `cid` as a data component of size `size` (transition
branch; the hypotheses state that the looked-up/created target archetype is a
different archetype, which is the shape every defined-behaviour call has). -/
theorem C7_set_then_get (w : TecsWorld) (e : TecsEntity) (cid : Nat)
    (data : List Nat) (size : Nat) (di a k row : Nat)
    (hdi : tecs_sparse_set_get_idx w.entities e = some di)
    (hrec : storeGet w.entities.dense default di = ⟨some a, Int.ofNat k, Int.ofNat row⟩)
    (hlen : data.length = size)
    (hcase :
      (∃ ci, (tecs_archetype_find_component (w.arch a) cid).isSome = true ∧
        tecs_data_component_find (w.arch a) cid = some ci ∧
        ((w.arch a).data_components.getD ci default).size = size) ∨
      (tecs_archetype_find_component (w.arch a) cid = none ∧
       (tecs_world_get_or_create_archetype_with_component w a cid size).1 ≠ a ∧
       ∃ ci, tecs_data_component_find
           ((tecs_world_get_or_create_archetype_with_component w a cid size).2.arch
             (tecs_world_get_or_create_archetype_with_component w a cid size).1) cid
           = some ci ∧
         (((tecs_world_get_or_create_archetype_with_component w a cid size).2.arch
             (tecs_world_get_or_create_archetype_with_component w a cid size).1
            ).data_components.getD ci default).size = size)) :
    tecs_get (tecs_set w e cid data size) e cid = some data := by
  rcases hcase with ⟨ci, hfc, hdc, hsz⟩ | ⟨hfc, hne, ci, hdcn, hszn⟩
  · have heq := tecs_set_inplace_eq w e cid data size di a k row ci hdi hrec hfc hdc
    have h1 : (tecs_set w e cid data size).entities = w.entities := by rw [heq]; rfl
    have hdi2 : tecs_sparse_set_get_idx (tecs_set w e cid data size).entities e
        = some di := by rw [h1]; exact hdi
    have hrec2 : storeGet (tecs_set w e cid data size).entities.dense default di
        = ⟨some a, Int.ofNat k, Int.ofNat row⟩ := by rw [h1]; exact hrec
    have hdc2 : tecs_data_component_find ((tecs_set w e cid data size).arch a) cid
        = some ci := by rw [heq, setArch_arch_self]; exact hdc
    have hsz2 : (((tecs_set w e cid data size).arch a).data_components.getD ci
        default).size = size := by rw [heq, setArch_arch_self]; exact hsz
    rw [tecs_get_chars _ e cid di a k row ci hdi2 hrec2 hdc2, hsz2, heq, setArch_arch_self]
    simp only [storeGet_storeSet_self]
    rw [readBytes_writeBytes_of_len (data.take size) _ _ size
      (by rw [List.length_take, hlen, Nat.min_self])]
    rw [← hlen, List.take_length]
  · have hreduce : tecs_set w e cid data size
        = tecs_archetype_remove_entity
            (tecs_set_write_new
              (tecs_copy_component_data
                (tecs_archetype_add_entity
                  (tecs_world_get_or_create_archetype_with_component w a cid size).2
                  (tecs_world_get_or_create_archetype_with_component w a cid size).1
                  (storeGet (storeGet
                      ((tecs_world_get_or_create_archetype_with_component w a cid
                        size).2.arch a).chunks default k).entities 0
                    (row % TECS_CHUNK_SIZE))
                  di
                  (tecs_world_get_or_create_archetype_with_component w a cid size).2.tick)
                a k (row % TECS_CHUNK_SIZE)
                (tecs_world_get_or_create_archetype_with_component w a cid size).1
                (tecs_archetype_pick_chunk
                  ((tecs_world_get_or_create_archetype_with_component w a cid size).2.arch
                    (tecs_world_get_or_create_archetype_with_component w a cid size).1)).1
                ((tecs_archetype_pick_chunk
                  ((tecs_world_get_or_create_archetype_with_component w a cid size).2.arch
                    (tecs_world_get_or_create_archetype_with_component w a cid
                      size).1)).2.entity_count % TECS_CHUNK_SIZE))
              (tecs_world_get_or_create_archetype_with_component w a cid size).1
              (tecs_archetype_pick_chunk
                ((tecs_world_get_or_create_archetype_with_component w a cid size).2.arch
                  (tecs_world_get_or_create_archetype_with_component w a cid size).1)).1
              ((tecs_archetype_pick_chunk
                ((tecs_world_get_or_create_archetype_with_component w a cid size).2.arch
                  (tecs_world_get_or_create_archetype_with_component w a cid
                    size).1)).2.entity_count % TECS_CHUNK_SIZE)
              cid data size)
            a k (row % TECS_CHUNK_SIZE) := by
      simp only [tecs_set, hdi, hrec, hfc, hne, add_entity_entities,
        storeGet_storeSet_self, toNat_ofNat_eq, ofNat_emod_chunk, if_false]
    rw [hreduce]
    have hdcs : ((tecs_copy_component_data
        (tecs_archetype_add_entity
          (tecs_world_get_or_create_archetype_with_component w a cid size).2
          (tecs_world_get_or_create_archetype_with_component w a cid size).1
          (storeGet (storeGet
              ((tecs_world_get_or_create_archetype_with_component w a cid
                size).2.arch a).chunks default k).entities 0 (row % TECS_CHUNK_SIZE))
          di
          (tecs_world_get_or_create_archetype_with_component w a cid size).2.tick)
        a k (row % TECS_CHUNK_SIZE)
        (tecs_world_get_or_create_archetype_with_component w a cid size).1
        (tecs_archetype_pick_chunk
          ((tecs_world_get_or_create_archetype_with_component w a cid size).2.arch
            (tecs_world_get_or_create_archetype_with_component w a cid size).1)).1
        ((tecs_archetype_pick_chunk
          ((tecs_world_get_or_create_archetype_with_component w a cid size).2.arch
            (tecs_world_get_or_create_archetype_with_component w a cid
              size).1)).2.entity_count % TECS_CHUNK_SIZE)).arch
        (tecs_world_get_or_create_archetype_with_component w a cid size).1).data_components
      = (((tecs_world_get_or_create_archetype_with_component w a cid size).2).arch
          (tecs_world_get_or_create_archetype_with_component w a cid size).1).data_components :=
      (copy_arch_dcs _ a k (row % TECS_CHUNK_SIZE) _ _ _).trans
        (add_entity_arch_dcs _ _ _ di _)
    refine tecs_set_write_new_get _ e cid di
      (tecs_world_get_or_create_archetype_with_component w a cid size).1
      (tecs_archetype_pick_chunk
        ((tecs_world_get_or_create_archetype_with_component w a cid size).2.arch
          (tecs_world_get_or_create_archetype_with_component w a cid size).1)).1
      (tecs_archetype_pick_chunk
        ((tecs_world_get_or_create_archetype_with_component w a cid size).2.arch
          (tecs_world_get_or_create_archetype_with_component w a cid
            size).1)).2.entity_count
      ci size data a k (row % TECS_CHUNK_SIZE) ?_ ?_ ?_ ?_ hlen (Ne.symm hne)
    · rw [copy_entities, add_entity_entities]
      show tecs_sparse_set_get_idx
        (tecs_world_get_or_create_archetype_with_component w a cid size).2.entities e
        = some di
      rw [get_or_create_with_entities]
      exact hdi
    · rw [copy_entities, add_entity_entities]
      exact storeGet_storeSet_self _ _ _ _
    · exact (data_find_congr _ _ cid hdcs).trans hdcn
    · rw [hdcs]
      exact hszn

/-- Witness for C7: on the concrete world `c710_w` (entity 0 already holds the
2-byte component C in archetype 1), writing bytes [5, 9] and reading them back
yields [5, 9] via the in-place branch. -/
theorem C7_set_then_get_witness :
    tecs_get (tecs_set c710_w 0 c710_cid [5, 9] 2) 0 c710_cid = some [5, 9] := by
  apply C7_set_then_get c710_w 0 c710_cid [5, 9] 2 0 1 0 0
    (by decide) (by decide) (by decide)
  exact Or.inl ⟨0, by decide, by decide, by decide⟩
